import Mathlib

/-!
Verification development for the SehatAgent orchestration pipeline.

This file gives a shallow embedding, in Lean 4, of the agent pipeline of the
repository (Safety Guard pre/post checks, Risk Assessor, Health Advisor,
Offline Helper, orchestrator control flow, and the keyword-search strategy of
the retrieval layer), and proves or refutes the stated specification claims
about it.

Modelling conventions:
* Python floats are modelled by exact fractions (`Frac`, an executable
  numerator/denominator pair; `Frac.toQ` maps into `ℚ` for order reasoning).
  All denominators arising in the embedded code are positive.
* Python dicts whose key sets matter to the claims (risk entries, the
  response envelopes, `health_indicators`) are modelled as association lists
  `List (String × _)`; dict assignment replaces the first occurrence of the
  key or appends (`setKeyA`), dict lookup takes the first occurrence
  (`lookupA`), matching CPython semantics for string-keyed dicts.
* `str.lower()` is modelled on the character list (`lowerData`); the embedded
  phrase tables are lowercase ASCII or Urdu script, for which this agrees
  with CPython.  Substring tests (`x in s`) are `containsSub`.
* `list(dict.fromkeys(xs))` (order-preserving dedup, first occurrence kept)
  is `dedupF`.
* `list.sort(key=..., reverse=True)` (stable descending sort) is
  `sortDescBy`.
* External backends (the LLM) are oracles passed as parameters: the advisor
  paraphrase oracle is the parsed line list of a successful `generate_text`
  call, `none` covering both an exception and a `None` response (all three
  are treated identically by the source call sites).
* The timestamp fields of decision records and the wall-clock processing
  time are not modelled (the processing time is an opaque parameter).
-/

/-- Single quote character, used inside embedded source strings. -/
def sqc : String := String.mk [Char.ofNat 39]

/-- Exact fraction with explicit numerator and denominator (models Python
floats; every denominator produced by the embedded code is positive).
Operations do not normalise, so they compute by `decide`. -/
structure Frac where
  n : Int
  d : Int
deriving DecidableEq, Repr

/-- Embed an integer. -/
def Frac.ofInt (k : Int) : Frac := ⟨k, 1⟩

/-- Fraction addition (cross multiplication, no normalisation). -/
def Frac.add (a b : Frac) : Frac := ⟨a.n * b.d + b.n * a.d, a.d * b.d⟩

/-- Fraction multiplication. -/
def Frac.mul (a b : Frac) : Frac := ⟨a.n * b.n, a.d * b.d⟩

/-- Boolean `a ≤ b` by cross multiplication (valid for positive denominators). -/
def Frac.le (a b : Frac) : Bool := decide (a.n * b.d ≤ b.n * a.d)

/-- Boolean `a < b` by cross multiplication (valid for positive denominators). -/
def Frac.blt (a b : Frac) : Bool := decide (a.n * b.d < b.n * a.d)

/-- The rational value of a fraction. -/
def Frac.toQ (a : Frac) : ℚ := (a.n : ℚ) / (a.d : ℚ)

/-- Round-half-up of `(100 * a)` to an integer, for nonnegative `a` with
positive denominator: `⌊(200 n + d) / (2 d)⌋`. -/
def Frac.round100 (a : Frac) : Int := (2 * (a.n * 100) + a.d) / (2 * a.d)

/-- Python `round(x, 2)` on the nonnegative values arising here (none of
which sits on a rounding boundary, so half-up agrees with CPython). -/
def Frac.round2 (a : Frac) : Frac := ⟨a.round100, 100⟩

/-- First-occurrence lookup in an association list (CPython dict lookup). -/
def lookupA (k : String) : List (String × α) → Option α
  | [] => none
  | (k', v) :: t => if k' = k then some v else lookupA k t

/-- Dict assignment: replace the first occurrence of the key, else append. -/
def setKeyA (k : String) (v : α) : List (String × α) → List (String × α)
  | [] => [(k, v)]
  | (k', v') :: t => if k' = k then (k, v) :: t else (k', v') :: setKeyA k v t

/-- Order-preserving deduplication keeping first occurrences
(`list(dict.fromkeys(xs))`), structurally recursive so that it computes
inside the kernel. -/
def dedupGo [DecidableEq α] (seen : List α) : List α → List α
  | [] => []
  | a :: t => if seen.contains a then dedupGo seen t else a :: dedupGo (a :: seen) t

/-- `list(dict.fromkeys(xs))`. -/
def dedupF [DecidableEq α] (l : List α) : List α := dedupGo [] l

/-- Substring containment on character lists (Python `needle in hay`). -/
def containsSub [DecidableEq α] (needle : List α) : List α → Bool
  | [] => needle.isEmpty
  | a :: t => needle.isPrefixOf (a :: t) || containsSub needle t

/-- Python `str.lower()` (ASCII case folding; the embedded tables contain no
cased non-ASCII characters). -/
def lowerData (s : String) : List Char := s.data.map Char.toLower

/-- `m.get(lang, m.get("en", dflt))`. -/
def langGet (m : List (String × α)) (lang : String) (dflt : α) : α :=
  match lookupA lang m with
  | some v => v
  | none => (lookupA "en" m).getD dflt

/-- Stable insertion for descending order on a `Frac` key: skip over
strictly larger keys, insert before the first key that is `≤` ours. -/
def insertDesc (key : α → Frac) (x : α) : List α → List α
  | [] => [x]
  | y :: l => if (key x).blt (key y) then y :: insertDesc key x l else x :: y :: l

/-- Stable descending sort by a `Frac` key
(Python `list.sort(key=..., reverse=True)`). -/
def sortDescBy (key : α → Frac) : List α → List α
  | [] => []
  | x :: l => insertDesc key x (sortDescBy key l)

/-- `app.agents.base_agent.AgentDecision` (timestamp not modelled). -/
structure AgentDecision where
  agent_name : String
  decision : String
  reasoning : String
  confidence : Frac
  inputs_used : List String
  language : String
deriving DecidableEq, Repr

/-- Values stored in the dict-shaped parts of the context
(risk entries, `health_indicators`). -/
inductive RVal where
  | s : String → RVal
  | f : Frac → RVal
  | sl : List String → RVal
  | sm : List (String × String) → RVal
deriving DecidableEq, Repr

/-- `app.agents.base_agent.AgentContext`. -/
structure AgentContext where
  session_id : String
  user_language : String
  user_input : String
  translated_input : Option String
  symptoms : List String := []
  health_indicators : List (String × RVal) := []
  identified_risks : List (List (String × RVal)) := []
  recommendations : List String := []
  safety_flags : List String := []
  decisions : List AgentDecision := []
  is_emergency : Bool := false
  degraded_mode : Bool := false
deriving DecidableEq, Repr

/-- `app.agents.safety_agent.EMERGENCY_SYMPTOMS` (a Python set; modelled as
the list of its literal elements). -/
def EMERGENCY_SYMPTOMS : List String :=
  [ "chest pain", "chest tightness", "heart attack", "stroke",
    "difficulty breathing", "can" ++ sqc ++ "t breathe", "choking",
    "unconscious", "unresponsive", "fainted",
    "severe bleeding", "heavy bleeding",
    "seizure", "convulsion",
    "severe allergic reaction", "anaphylaxis",
    "severe head injury", "head trauma",
    "suicidal", "self harm", "want to die",
    "سینے میں درد", "سانس نہیں آ رہی", "بے ہوش",
    "شدید خون بہنا", "دورہ پڑنا", "دل کا دورہ",
    "seene mein dard", "saans nahi aa rahi", "behosh",
    "shadeed khoon", "dil ka daura" ]

/-- `app.agents.safety_agent.DOCTOR_REQUIRED_SYMPTOMS`. -/
def DOCTOR_REQUIRED_SYMPTOMS : List String :=
  [ "blood in stool", "blood in urine", "vomiting blood",
    "persistent high fever", "fever over 104",
    "severe abdominal pain", "appendicitis symptoms",
    "pregnancy complications", "heavy period",
    "sudden vision loss", "sudden hearing loss",
    "severe headache worst ever",
    "lump or growth", "unexplained weight loss",
    "jaundice", "yellow eyes",
    "خون کی الٹی", "پیشاب میں خون", "پاخانے میں خون",
    "khoon ki ulti", "peshab mein khoon" ]

/-- `app.agents.safety_agent.SENSITIVE_TOPICS`. -/
def SENSITIVE_TOPICS : List String :=
  [ "pregnancy", "mental health", "suicide", "depression",
    "sexually transmitted", "hiv", "aids",
    "cancer", "tumor", "chemotherapy",
    "prescription medication", "drug interaction" ]

/-- `app.agents.safety_agent.UNSAFE_RECOMMENDATIONS`. -/
def UNSAFE_RECOMMENDATIONS : List String :=
  [ "take antibiotics without prescription",
    "self-medicate",
    "ignore symptoms",
    "skip doctor",
    "use unprescribed medication" ]

/-- `SafetyGuardAgent._check_emergency`: any emergency phrase is a
(case-insensitive) substring of the text. -/
def check_emergency (text : List Char) : Bool :=
  EMERGENCY_SYMPTOMS.any (fun s => containsSub (lowerData s) text)

/-- `SafetyGuardAgent._check_doctor_required`. -/
def check_doctor_required (text : List Char) : Bool :=
  DOCTOR_REQUIRED_SYMPTOMS.any (fun s => containsSub (lowerData s) text)

/-- `SafetyGuardAgent._check_sensitive_topics`: first matching topic. -/
def check_sensitive_topics (text : List Char) : Option String :=
  SENSITIVE_TOPICS.find? (fun t => containsSub t.data text)

/-- The scanned text of the Safety Guard pre-check:
`(user_input + " " + (translated_input or "")).lower()`. -/
def safetyScanText (c : AgentContext) : List Char :=
  lowerData (c.user_input ++ " " ++ (match c.translated_input with
    | some t => if t = "" then "" else t
    | none => ""))

/-- `SafetyGuardAgent.process` (the pre-check). -/
def safety_process (c : AgentContext) : AgentContext :=
  let text := safetyScanText c
  if check_emergency text then
    { c with
      is_emergency := true
      safety_flags := c.safety_flags ++ ["EMERGENCY_DETECTED"]
      decisions := c.decisions ++
        [{ agent_name := "SafetyGuard"
           decision := "Emergency situation detected"
           reasoning := "User input contains emergency symptoms requiring immediate medical attention"
           confidence := ⟨95, 100⟩
           inputs_used := ["user_input", "emergency_patterns"]
           language := c.user_language }] }
  else
    let flags1 := if check_doctor_required text
      then c.safety_flags ++ ["DOCTOR_RECOMMENDED"] else c.safety_flags
    let flags2 := match check_sensitive_topics text with
      | some topic => flags1 ++ ["SENSITIVE_TOPIC:" ++ topic]
      | none => flags1
    let joined := String.intercalate ", " flags2
    { c with
      safety_flags := flags2
      decisions := c.decisions ++
        [{ agent_name := "SafetyGuard"
           decision := if flags2.isEmpty then "Safety pre-check passed"
                       else "Flags: " ++ joined
           reasoning := "Scanned for emergency, doctor-required, and sensitive topics"
           confidence := ⟨9, 10⟩
           inputs_used := ["user_input", "safety_patterns"]
           language := c.user_language }] }

/-- `SafetyGuardAgent._is_safe_recommendation`. -/
def is_safe_recommendation (rec : String) : Bool :=
  !(UNSAFE_RECOMMENDATIONS.any (fun u => containsSub u.data (lowerData rec)))

/-- `SafetyGuardAgent._get_doctor_recommendation`. -/
def get_doctor_recommendation (language : String) : String :=
  langGet
    [ ("en", "⚠️ Based on your symptoms, we strongly recommend consulting a healthcare professional for proper diagnosis and treatment."),
      ("ur", "⚠️ آپ کی علامات کی بنیاد پر، ہم تجویز کرتے ہیں کہ صحیح تشخیص کے لیے ڈاکٹر سے ضرور ملیں۔"),
      ("roman_urdu", "⚠️ Aap ki symptoms ke mutabiq, doctor se milna zaroori hai.") ]
    language ""

/-- `r.get("severity", 0)` on a risk-entry dict: the numeric value of the
`severity` key, `0` when absent.  (A non-numeric value would make the
Python comparison raise; no embedded code path stores one.) -/
def getSeverity (r : List (String × RVal)) : Frac :=
  match lookupA "severity" r with
  | some (RVal.f q) => q
  | _ => Frac.ofInt 0

/-- `SafetyGuardAgent.validate_recommendations` (the post-check). -/
def validate_recommendations (c : AgentContext) : AgentContext :=
  let validated := c.recommendations.filter is_safe_recommendation
  let high_severity :=
    c.identified_risks.any (fun r => (Frac.ofInt 7).blt (getSeverity r))
  let doInsert := !c.identified_risks.isEmpty && high_severity &&
    !(c.safety_flags.contains "DOCTOR_RECOMMENDED")
  let flags := if doInsert then c.safety_flags ++ ["DOCTOR_RECOMMENDED"] else c.safety_flags
  let validated2 := if doInsert
    then get_doctor_recommendation c.user_language :: validated
    else validated
  let vlen := validated2.length
  { c with
    recommendations := validated2
    safety_flags := flags
    decisions := c.decisions ++
      [{ agent_name := "SafetyGuard"
         decision := s!"Validated {vlen} recommendations"
         reasoning := "Filtered unsafe recommendations and added appropriate warnings"
         confidence := ⟨9, 10⟩
         inputs_used := ["recommendations", "identified_risks", "safety_flags"]
         language := c.user_language }] }

/-- One row of `RiskAssessorAgent.PAKISTAN_HEALTH_RISKS` (the fields the
agent code reads; `prevalence` is pre-computed as
`get("prevalence_percent", get("incidence_per_100k", "N/A"))`). -/
structure CondRisk where
  name : String
  risk_level : String
  prevalence : RVal
  trigger_symptoms : List String
  action : List (String × String)
  warning : Option String := none
  warning_signs : Option (List String) := none

/-- `RiskAssessorAgent.PAKISTAN_HEALTH_RISKS`, in source (insertion) order. -/
def PAKISTAN_HEALTH_RISKS : List CondRisk :=
  [ { name := "diabetes", risk_level := "very_high", prevalence := RVal.f ⟨263, 10⟩,
      trigger_symptoms := ["excessive_thirst", "frequent_urination", "fatigue", "weight_loss", "blurred_vision", "slow_wound_healing"],
      action := [ ("en", "Get fasting blood sugar test. If diabetic, lifestyle changes and regular monitoring are essential."),
                  ("ur", "فاسٹنگ بلڈ شوگر ٹیسٹ کروائیں۔ ذیابیطس ہو تو طرز زندگی بدلیں اور باقاعدہ چیک اپ کروائیں۔"),
                  ("roman_urdu", "Fasting blood sugar test karwayein. Diabetes ho to lifestyle badlein aur regular checkup karwayein.") ] },
    { name := "hypertension", risk_level := "very_high", prevalence := RVal.f ⟨33, 1⟩,
      trigger_symptoms := ["headache", "dizziness", "chest_pain", "shortness_of_breath", "nosebleed", "vision_problems"],
      action := [ ("en", "Check blood pressure regularly. Reduce salt intake to less than 5g/day. Exercise 30 minutes daily."),
                  ("ur", "بلڈ پریشر باقاعدگی سے چیک کروائیں۔ نمک 5 گرام سے کم کھائیں۔ روزانہ 30 منٹ ورزش کریں۔"),
                  ("roman_urdu", "BP regularly check karwayein. Namak kam khayein. Rozana 30 minute exercise karein.") ] },
    { name := "anemia", risk_level := "high", prevalence := RVal.s "N/A",
      trigger_symptoms := ["fatigue", "weakness", "pale_skin", "dizziness", "shortness_of_breath", "cold_hands"],
      action := [ ("en", "Eat iron-rich foods: liver (kaleji), spinach (palak), chickpeas (chana), jaggery (gur). Get hemoglobin test."),
                  ("ur", "آئرن والی غذائیں کھائیں: کلیجی، پالک، چنے، گڑ۔ ہیموگلوبن ٹیسٹ کروائیں۔"),
                  ("roman_urdu", "Iron wali ghizayein khayein: kaleji, palak, chanay, gur. Hemoglobin test karwayein.") ] },
    { name := "vitamin_d_deficiency", risk_level := "very_high", prevalence := RVal.f ⟨66, 1⟩,
      trigger_symptoms := ["fatigue", "bone_pain", "muscle_weakness", "depression", "frequent_infections"],
      action := [ ("en", "Get 15-20 minutes morning sunlight (before 10 AM). Eat eggs, fish, fortified milk. Consider supplements."),
                  ("ur", "صبح 10 بجے سے پہلے 15-20 منٹ دھوپ لیں۔ انڈے، مچھلی، دودھ کھائیں۔ سپلیمنٹ لیں۔"),
                  ("roman_urdu", "Subah 10 bajay se pehle 15-20 minute dhoop lein. Anday, machli, doodh khayein.") ] },
    { name := "typhoid", risk_level := "endemic", prevalence := RVal.f ⟨493, 1⟩,
      trigger_symptoms := ["fever", "headache", "stomach_pain", "constipation", "diarrhea", "rose_spots"],
      action := [ ("en", "Get Widal test or blood culture. Drink only boiled/filtered water. Complete full antibiotic course."),
                  ("ur", "ویڈال ٹیسٹ یا بلڈ کلچر کروائیں۔ صرف ابلا/فلٹر پانی پیں۔ اینٹی بائیوٹک کا پورا کورس کریں۔"),
                  ("roman_urdu", "Widal test karwayein. Sirf ubla/filter paani piyen. Antibiotic ka poora course karein.") ],
      warning := some "70% typhoid in Pakistan is now drug-resistant (XDR). Complete treatment is critical." },
    { name := "dengue", risk_level := "seasonal_high", prevalence := RVal.s "N/A",
      trigger_symptoms := ["high_fever", "severe_headache", "eye_pain", "joint_pain", "body_aches", "rash", "bleeding"],
      action := [ ("en", "Get NS1 antigen test (first 5 days) or dengue antibody test. NO ASPIRIN - only paracetamol. Monitor platelets daily."),
                  ("ur", "NS1 ٹیسٹ کروائیں۔ اسپرین نہ لیں - صرف پیراسیٹامول۔ روزانہ پلیٹلیٹس چیک کروائیں۔"),
                  ("roman_urdu", "NS1 test karwayein. ASPIRIN NA LEIN - sirf paracetamol. Rozana platelets check karwayein.") ],
      warning_signs := some ["Severe abdominal pain", "Persistent vomiting", "Bleeding", "Lethargy"] },
    { name := "tuberculosis", risk_level := "high", prevalence := RVal.f ⟨259, 1⟩,
      trigger_symptoms := ["persistent_cough", "cough_blood", "night_sweats", "weight_loss", "evening_fever"],
      action := [ ("en", "Get sputum test (GeneXpert) and chest X-ray. TB is CURABLE with 6-month treatment. COMPLETE THE FULL COURSE."),
                  ("ur", "بلغم کا ٹیسٹ (GeneXpert) اور سینے کا ایکسرے کروائیں۔ ٹی بی 6 ماہ علاج سے ٹھیک ہو سکتی ہے۔ پورا کورس مکمل کریں۔"),
                  ("roman_urdu", "Balgham ka test aur chest X-ray karwayein. TB 6 maah treatment se theek hoti hai. POORA COURSE KAREIN.") ] },
    { name := "hepatitis_b_c", risk_level := "high", prevalence := RVal.s "N/A",
      trigger_symptoms := ["jaundice", "fatigue", "dark_urine", "pale_stool", "abdominal_pain"],
      action := [ ("en", "Get HBsAg and Anti-HCV tests. Hepatitis C is now CURABLE in 12 weeks! Use only disposable syringes."),
                  ("ur", "HBsAg اور Anti-HCV ٹیسٹ کروائیں۔ ہیپاٹائٹس سی اب 12 ہفتوں میں قابل علاج ہے! صرف ڈسپوزایبل سرنج استعمال کریں۔"),
                  ("roman_urdu", "Hepatitis test karwayein. Hepatitis C ab 12 hafton mein theek ho sakti hai! Sirf disposable syringe istemal karein.") ] },
    { name := "malaria", risk_level := "endemic_regional", prevalence := RVal.s "N/A",
      trigger_symptoms := ["cyclical_fever", "chills", "sweating", "headache", "body_aches"],
      action := [ ("en", "Get malaria rapid test or blood smear. Sleep under insecticide-treated bed nets."),
                  ("ur", "ملیریا ٹیسٹ کروائیں۔ کیڑے مار دوائی لگی مچھر دانی میں سوئیں۔"),
                  ("roman_urdu", "Malaria test karwayein. Machhar daani mein soyein.") ] },
    { name := "diarrheal_diseases", risk_level := "high_children", prevalence := RVal.s "N/A",
      trigger_symptoms := ["diarrhea", "vomiting", "dehydration", "fever"],
      action := [ ("en", "Give ORS after every loose stool. Continue breastfeeding. Give Zinc for 10-14 days. Seek help if blood in stool or can" ++ sqc ++ "t drink."),
                  ("ur", "ہر پتلے پاخانے کے بعد نمکول دیں۔ دودھ پلانا جاری رکھیں۔ زنک 10-14 دن دیں۔ پاخانے میں خون ہو یا پی نہ سکے تو ڈاکٹر کو دکھائیں۔"),
                  ("roman_urdu", "Har patle pakhane ke baad ORS dein. Doodh pilana jari rakhein. Zinc 10-14 din dein.") ] } ]

/-- One row of `RiskAssessorAgent.NUTRITION_RISKS` (`prevalence` is the
pre-computed `get("prevalence", "common")`; the `iron_deficiency` row has
only `prevalence_women`/`prevalence_children` keys, so it falls to
`"common"`). -/
structure NutRisk where
  name : String
  prevalence : RVal
  symptoms : List String
  sources : List (String × String)

/-- `RiskAssessorAgent.NUTRITION_RISKS`, in source order. -/
def NUTRITION_RISKS : List NutRisk :=
  [ { name := "iron_deficiency", prevalence := RVal.s "common",
      symptoms := ["fatigue", "weakness", "pale", "dizziness", "cold_extremities"],
      sources := [ ("en", "Liver (kaleji), spinach (palak), chickpeas (chana), jaggery (gur), dates"),
                   ("ur", "کلیجی، پالک، چنے، گڑ، کھجور"),
                   ("roman_urdu", "Kaleji, palak, chanay, gur, khajoor") ] },
    { name := "vitamin_d_deficiency", prevalence := RVal.s "66%",
      symptoms := ["fatigue", "bone_pain", "muscle_weakness", "depression"],
      sources := [ ("en", "Morning sunlight (15-20 min before 10 AM), eggs, fish, fortified milk"),
                   ("ur", "صبح کی دھوپ (10 بجے سے پہلے 15-20 منٹ)، انڈے، مچھلی، دودھ"),
                   ("roman_urdu", "Subah ki dhoop, anday, machli, doodh") ] },
    { name := "protein_deficiency", prevalence := RVal.s "common",
      symptoms := ["weakness", "hair_loss", "slow_healing", "infections"],
      sources := [ ("en", "Lentils (daal), chicken, eggs, milk, yogurt (dahi), paneer"),
                   ("ur", "دال، مرغی، انڈے، دودھ، دہی، پنیر"),
                   ("roman_urdu", "Daal, murgi, anday, doodh, dahi, paneer") ] } ]

/-- The per-symptom match test of the risk agent:
`s in trigger_symptoms or any(t in s for t in trigger_symptoms)`. -/
def triggerMatch (triggers : List String) (s : String) : Bool :=
  triggers.contains s || triggers.any (fun t => containsSub t.data s.data)

/-- The risk entry dict built for a matched condition. -/
def condEntry (cr : CondRisk) (matched : List String) : List (String × RVal) :=
  let ratio : Frac := ⟨(matched.length : Int), (cr.trigger_symptoms.length : Int)⟩
  [ ("condition", RVal.s cr.name),
    ("risk_level", RVal.s cr.risk_level),
    ("prevalence", cr.prevalence),
    ("matched_symptoms", RVal.sl matched),
    ("match_confidence", RVal.f ratio.round2),
    ("action", RVal.sm cr.action),
    ("data_source", RVal.s "Pakistan Bureau of Statistics / WHO") ]
  ++ (match cr.warning with
      | some w => [("warning", RVal.s w)]
      | none => [])
  ++ (match cr.warning_signs with
      | some ws => [("warning_signs", RVal.sl ws)]
      | none => [])

/-- The severity weight of a condition match:
3 for `very_high`/`endemic`, 2 for `high`/`seasonal_high`, else 1. -/
def severityWeight (rl : String) : Int :=
  if rl = "very_high" || rl = "endemic" then 3
  else if rl = "high" || rl = "seasonal_high" then 2
  else 1

/-- One iteration of the condition loop of `RiskAssessorAgent.process`:
append an entry and accumulate `weight × match_ratio` when a trigger
symptom matched. -/
def condStep (symptoms : List String) (acc : List (List (String × RVal)) × Frac)
    (cr : CondRisk) : List (List (String × RVal)) × Frac :=
  let matched := symptoms.filter (triggerMatch cr.trigger_symptoms)
  if matched.isEmpty then acc
  else
    let ratio : Frac := ⟨(matched.length : Int), (cr.trigger_symptoms.length : Int)⟩
    (acc.1 ++ [condEntry cr matched],
     acc.2.add ((Frac.ofInt (severityWeight cr.risk_level)).mul ratio))

/-- The risk entry dict built for a matched nutrition deficiency. -/
def nutEntry (nr : NutRisk) : List (String × RVal) :=
  [ ("condition", RVal.s nr.name),
    ("type", RVal.s "nutritional_deficiency"),
    ("prevalence", nr.prevalence),
    ("recommended_sources", RVal.sm nr.sources),
    ("data_source", RVal.s "Pakistan Bureau of Statistics / Open Food Facts") ]

/-- One iteration of the nutrition loop of `RiskAssessorAgent.process`. -/
def nutStep (symptoms : List String) (acc : List (List (String × RVal)) × Frac)
    (nr : NutRisk) : List (List (String × RVal)) × Frac :=
  if nr.symptoms.any (fun s => symptoms.contains s) then
    (acc.1 ++ [nutEntry nr], acc.2.add (Frac.ofInt 1))
  else acc

/-- The accumulated `(identified_risks, severity_score)` of
`RiskAssessorAgent.process` before sorting. -/
def riskAccum (symptoms : List String) : List (List (String × RVal)) × Frac :=
  NUTRITION_RISKS.foldl (nutStep symptoms)
    (PAKISTAN_HEALTH_RISKS.foldl (condStep symptoms) ([], Frac.ofInt 0))

/-- The threshold ladder of `RiskAssessorAgent.process`:
emergency or score ≥ 8 ⇒ CRITICAL, ≥ 5 ⇒ HIGH, ≥ 2 ⇒ MEDIUM, else LOW. -/
def riskLevelOf (emerg : Bool) (score : Frac) : String :=
  if emerg || (Frac.ofInt 8).le score then "CRITICAL"
  else if (Frac.ofInt 5).le score then "HIGH"
  else if (Frac.ofInt 2).le score then "MEDIUM"
  else "LOW"

/-- `x.get("match_confidence", 0)`, the sort key of the risk list. -/
def matchConfKey (r : List (String × RVal)) : Frac :=
  match lookupA "match_confidence" r with
  | some (RVal.f q) => q
  | _ => Frac.ofInt 0

/-- String value of a key in a risk-entry dict (empty when absent). -/
def entryStr (k : String) (r : List (String × RVal)) : String :=
  match lookupA k r with
  | some (RVal.s v) => v
  | _ => ""

/-- Render a fraction to one decimal place (Python `f"{x:.1f}"` on the
non-boundary nonnegative values arising here). -/
def Frac.fmt1 (a : Frac) : String :=
  let t : Int := (2 * (a.n * 10) + a.d) / (2 * a.d)
  s!"{t / 10}.{t % 10}"

/-- `RiskAssessorAgent.process`. -/
def risk_process (c : AgentContext) : AgentContext :=
  let acc := riskAccum c.symptoms
  let score := acc.2
  let lvl := riskLevelOf c.is_emergency score
  let sorted := sortDescBy matchConfKey acc.1
  let nrisks := sorted.length
  let top3 := (sorted.take 3).map (entryStr "condition")
  let topStr := "[" ++ String.intercalate ", " top3 ++ "]"
  let scoreStr := score.fmt1
  { c with
    identified_risks := sorted
    health_indicators :=
      setKeyA "severity_score" (RVal.f score.round2)
        (setKeyA "risk_level" (RVal.s lvl) c.health_indicators)
    decisions := c.decisions ++
      [{ agent_name := "RiskAssessor"
         decision := s!"Assessed {nrisks} potential risks. Overall risk level: {lvl}"
         reasoning := s!"Matched symptoms against Pakistan health statistics. Severity score: {scoreStr}. Top conditions: {topStr}"
         confidence := if sorted.isEmpty then ⟨6, 10⟩ else ⟨8, 10⟩
         inputs_used := ["symptoms", "PAKISTAN_HEALTH_STATISTICS", "WHO_HEALTH_DATA"]
         language := c.user_language }] }

/-- One row of `HealthAdvisorAgent.HEALTH_RECOMMENDATIONS` (the fields the
agent code reads: `immediate`, `nutrition` and the three warning keys; an
absent `nutrition` dict and an empty one behave identically at the read
site, so both are the empty map). -/
structure RecRow where
  name : String
  immediate : List (String × List String)
  nutrition : List (String × List String) := []
  tb_warning : Option (List (String × String)) := none
  dengue_warning : Option (List (String × String)) := none
  hepatitis_info : Option (List (String × String)) := none

/-- `HealthAdvisorAgent.HEALTH_RECOMMENDATIONS`, in source order. -/
def HEALTH_RECOMMENDATIONS : List RecRow :=
  [ { name := "fever",
      immediate :=
        [ ("en", [ "Rest in a cool, comfortable place",
                   "Drink plenty of fluids - water, ORS, fresh juices",
                   "Take paracetamol for fever (NOT aspirin if dengue suspected)",
                   "Apply cool compress on forehead",
                   "Wear light, loose clothing" ]),
          ("ur", [ "ٹھنڈی آرام دہ جگہ پر لیٹیں",
                   "خوب پانی پیں - پانی، نمکول، تازہ جوس",
                   "پیراسیٹامول لیں (ڈینگی کا شبہ ہو تو اسپرین نہ لیں)",
                   "ماتھے پر ٹھنڈا کپڑا رکھیں",
                   "ہلکے ڈھیلے کپڑے پہنیں" ]),
          ("roman_urdu", [ "Thandi jagah par aaram karein",
                   "Khoob paani piyen - paani, ORS, juice",
                   "Paracetamol lein (dengue ho to aspirin na lein)",
                   "Mathay par thanda kapra rakhein",
                   "Halke dheelay kapray pehnein" ]) ],
      nutrition :=
        [ ("en", ["Light, easily digestible food", "Khichdi, dal chawal, soups", "Avoid oily and spicy food"]),
          ("ur", ["ہلکی آسانی سے ہضم ہونے والی غذا", "کھچڑی، دال چاول، سوپ", "تلی ہوئی اور مصالحے دار غذا سے پرہیز"]),
          ("roman_urdu", ["Halka khana khayein", "Khichdi, daal chawal, soup", "Tala hua aur masaledar khana na khayein"]) ] },
    { name := "diarrhea",
      immediate :=
        [ ("en", [ "START ORS IMMEDIATELY - after every loose stool",
                   "Home ORS: 1 liter clean water + ½ teaspoon salt + 6 tablespoons sugar",
                   "Continue breastfeeding for infants",
                   "Give Zinc supplement for 10-14 days",
                   "Wash hands with soap frequently" ]),
          ("ur", [ "فوری نمکول شروع کریں - ہر پتلے پاخانے کے بعد",
                   "گھر پر نمکول: 1 لیٹر صاف پانی + آدھا چائے کا چمچ نمک + 6 کھانے کے چمچ چینی",
                   "بچوں کو دودھ پلانا جاری رکھیں",
                   "زنک کی گولی 10-14 دن دیں",
                   "صابن سے ہاتھ دھوتے رہیں" ]),
          ("roman_urdu", [ "Fori ORS shuru karein - har patle pakhane ke baad",
                   "Ghar par ORS: 1 liter saaf paani + aadha chamach namak + 6 chamach cheeni",
                   "Bachon ko doodh pilana jari rakhein",
                   "Zinc ki goli 10-14 din dein",
                   "Sabun se haath dhote rahein" ]) ],
      nutrition :=
        [ ("en", ["BRAT diet: Banana, Rice, Apple, Toast", "Yogurt (dahi) with rice", "Avoid milk (except breast milk)", "Avoid fatty and spicy foods"]),
          ("ur", ["کیلا، چاول، سیب، ٹوسٹ کھائیں", "دہی چاول کھائیں", "دودھ سے پرہیز (ماں کا دودھ چھوڑ کر)", "چکنائی اور مصالحے دار کھانے سے پرہیز"]),
          ("roman_urdu", ["Kela, chawal, saib, toast khayein", "Dahi chawal khayein", "Doodh se parhair (maa ka doodh chor kar)"]) ] },
    { name := "headache",
      immediate :=
        [ ("en", [ "Rest in a quiet, dark room",
                   "Stay well hydrated - drink 8-10 glasses of water",
                   "Apply cold compress on forehead or neck",
                   "Take paracetamol if needed",
                   "Check your blood pressure" ]),
          ("ur", [ "پرسکون اندھیرے کمرے میں آرام کریں",
                   "پانی خوب پیں - 8-10 گلاس",
                   "ماتھے یا گردن پر ٹھنڈا کپڑا رکھیں",
                   "ضرورت ہو تو پیراسیٹامول لیں",
                   "بلڈ پریشر چیک کروائیں" ]),
          ("roman_urdu", [ "Pursukoon andhere kamre mein aaram karein",
                   "Paani khoob piyen - 8-10 glass",
                   "Mathay ya gardan par thanda kapra rakhein",
                   "Zaroorat ho to paracetamol lein",
                   "BP check karwayein" ]) ],
      nutrition :=
        [ ("en", ["Avoid caffeine excess", "Eat regular meals - don" ++ sqc ++ "t skip", "Magnesium-rich foods: spinach, nuts, whole grains"]),
          ("ur", ["زیادہ چائے/کافی سے پرہیز", "باقاعدگی سے کھانا کھائیں", "پالک، گری دار میوے، سابت اناج کھائیں"]) ] },
    { name := "cough",
      immediate :=
        [ ("en", [ "Drink warm fluids - honey with warm water, herbal tea",
                   "Steam inhalation 2-3 times daily",
                   "Gargle with warm salt water",
                   "Use honey (1-2 teaspoons) for soothing throat",
                   "Cover mouth when coughing" ]),
          ("ur", [ "گرم مشروبات پیں - شہد والا گرم پانی، قہوہ",
                   "بھاپ لیں دن میں 2-3 بار",
                   "نمک کے گرم پانی سے غرارے کریں",
                   "شہد (1-2 چائے کے چمچ) گلے کے لیے لیں",
                   "کھانستے وقت منہ ڈھانپیں" ]),
          ("roman_urdu", [ "Garam mashroobat piyen - shehad wala garam paani",
                   "Bhaap lein din mein 2-3 baar",
                   "Namak ke garam paani se ghararay karein",
                   "Shehad galay ke liye lein",
                   "Khanstay waqt munh dhaampein" ]) ],
      nutrition :=
        [ ("en", ["Warm soups", "Ginger tea", "Turmeric milk (haldi doodh)", "Avoid cold drinks and ice cream"]),
          ("ur", ["گرم سوپ", "ادرک کی چائے", "ہلدی والا دودھ", "ٹھنڈے مشروبات اور آئس کریم سے پرہیز"]) ],
      tb_warning := some
        [ ("en", "If cough persists >2 weeks with weight loss and night sweats, GET TESTED FOR TB"),
          ("ur", "اگر 2 ہفتے سے زیادہ کھانسی ہو اور وزن کم ہو رہا ہو تو ٹی بی کا ٹیسٹ کروائیں"),
          ("roman_urdu", "Agar 2 hafte se zyada khansi ho aur wajan kam ho to TB test karwayein") ] },
    { name := "fatigue",
      immediate :=
        [ ("en", [ "Ensure 7-8 hours of quality sleep",
                   "Check for anemia - very common in Pakistan (41% women)",
                   "Get Vitamin D level checked (66% deficiency in Pakistan)",
                   "Light exercise - 30 minutes walking daily",
                   "Stay hydrated" ]),
          ("ur", [ "7-8 گھنٹے اچھی نیند لیں",
                   "خون کی کمی چیک کروائیں - پاکستان میں بہت عام (41% خواتین)",
                   "وٹامن ڈی چیک کروائیں (66% میں کمی ہے)",
                   "ہلکی ورزش - روزانہ 30 منٹ چہل قدمی",
                   "پانی خوب پیں" ]),
          ("roman_urdu", [ "7-8 ghante achi neend lein",
                   "Khoon ki kami check karwayein - 41% women mein hoti hai",
                   "Vitamin D check karwayein - 66% mein kami hai",
                   "Halki exercise - rozana 30 minute walk",
                   "Paani khoob piyen" ]) ] },
    { name := "stomach_pain",
      immediate :=
        [ ("en", [ "Rest and avoid heavy meals",
                   "Apply warm compress on abdomen",
                   "Drink mint tea or ajwain water",
                   "Avoid spicy, oily, and acidic foods",
                   "Take small, frequent meals" ]),
          ("ur", [ "آرام کریں اور بھاری کھانے سے پرہیز",
                   "پیٹ پر گرم کپڑا رکھیں",
                   "پودینے کی چائے یا اجوائن کا پانی پیں",
                   "مصالحے دار، تلی ہوئی اور تیزابی غذا سے پرہیز",
                   "تھوڑا تھوڑا بار بار کھائیں" ]),
          ("roman_urdu", [ "Aaram karein aur bhaari khane se parhair",
                   "Pait par garam kapra rakhein",
                   "Pudine ki chai ya ajwain ka paani piyen",
                   "Masaledaar aur tala hua khana na khayein",
                   "Thora thora baar baar khayein" ]) ] },
    { name := "body_aches",
      immediate :=
        [ ("en", [ "Complete bed rest",
                   "Stay well hydrated",
                   "Take paracetamol for pain",
                   "If with high fever, consider dengue test (especially Aug-Nov)",
                   "Apply warm compress on affected areas" ]),
          ("ur", [ "مکمل آرام کریں",
                   "پانی خوب پیں",
                   "درد کے لیے پیراسیٹامول لیں",
                   "تیز بخار ہو تو ڈینگی ٹیسٹ کروائیں (خاص طور پر اگست-نومبر)",
                   "متاثرہ جگہ پر گرم کپڑا رکھیں" ]),
          ("roman_urdu", [ "Mukammal aaram karein",
                   "Paani khoob piyen",
                   "Dard ke liye paracetamol lein",
                   "Tez bukhar ho to dengue test karwayein (Aug-Nov mein)",
                   "Mutasira jagah par garam kapra rakhein" ]) ],
      dengue_warning := some
        [ ("en", "If severe body/joint pain with high fever during monsoon season (Aug-Nov), GET DENGUE TEST. Do NOT take aspirin!"),
          ("ur", "اگر مانسون میں (اگست-نومبر) تیز بخار کے ساتھ شدید جسم/جوڑوں میں درد ہو تو ڈینگی ٹیسٹ کروائیں۔ اسپرین نہ لیں!"),
          ("roman_urdu", "Aug-Nov mein tez bukhar ke sath shadeed jism/joron mein dard ho to DENGUE TEST karwayein. ASPIRIN NA LEIN!") ] },
    { name := "jaundice",
      immediate :=
        [ ("en", [ "Complete bed rest",
                   "Drink plenty of fluids - sugarcane juice, coconut water",
                   "Avoid oily, fried, and heavy foods",
                   "Get Hepatitis B and C tests",
                   "Do NOT share razors, toothbrushes" ]),
          ("ur", [ "مکمل آرام کریں",
                   "خوب پانی پیں - گنے کا رس، ناریل پانی",
                   "تلی ہوئی اور بھاری غذا سے پرہیز",
                   "ہیپاٹائٹس بی اور سی ٹیسٹ کروائیں",
                   "استرا، ٹوتھ برش شیئر نہ کریں" ]),
          ("roman_urdu", [ "Mukammal aaram karein",
                   "Khoob paani piyen - gannay ka ras, nariyal paani",
                   "Tali hui aur bhaari ghiza se parhair",
                   "Hepatitis B aur C test karwayein",
                   "Ustra, toothbrush share na karein" ]) ],
      hepatitis_info := some
        [ ("en", "Hepatitis C is now CURABLE in 12 weeks with new medicines. Get tested!"),
          ("ur", "ہیپاٹائٹس سی اب نئی دوائیوں سے 12 ہفتوں میں قابل علاج ہے۔ ٹیسٹ کروائیں!"),
          ("roman_urdu", "Hepatitis C ab 12 hafton mein theek ho sakti hai. Test karwayein!") ] } ]

/-- `PAKISTAN_NUTRITION_DATA["iron_rich_foods"]`: the `(name_roman, name_en)`
pairs read by the advisor, in insertion order. -/
def IRON_RICH_FOODS : List (String × String) :=
  [ ("Kaleji", "Mutton Liver"),
    ("Palak", "Spinach"),
    ("Channay", "Chickpeas (Chana)"),
    ("Gur", "Jaggery"),
    ("Khajoor", "Dates"),
    ("Beef/Gosht", "Beef") ]

/-- `EMERGENCY_CONTACTS_PAKISTAN["emergency_services"]`: stored opaquely in
`health_indicators` (the nested metadata is never read back), rendered as
the service → number map. -/
def EMERGENCY_SERVICES_CONTACTS : RVal :=
  RVal.sm [ ("rescue_1122", "1122"), ("edhi_foundation", "115"),
            ("chippa_foundation", "1021"), ("aman_foundation", "1021") ]

/-- Accumulation of the per-symptom loop of `HealthAdvisorAgent.process`:
`(recommendations, nutrition_advice, safety_flags)`. -/
def advisorSymptomStep (lang : String)
    (acc : List String × List String × List String) (s : String) :
    List String × List String × List String :=
  match HEALTH_RECOMMENDATIONS.find? (fun row => row.name = s) with
  | none => acc
  | some row =>
    let recs := acc.1 ++ langGet row.immediate lang []
    let nutr := acc.2.1 ++ langGet row.nutrition lang []
    let flags := [row.tb_warning, row.dengue_warning, row.hepatitis_info].foldl
      (fun fl w => match w with
        | some m => let t := langGet m lang ""
                    if t = "" then fl else fl ++ [t]
        | none => fl) acc.2.2
    (recs, nutr, flags)

/-- `HealthAdvisorAgent.process`.  `useLLM` is `vertex_service is not None`;
`paraphrase` is the parsed line list of a successful personalisation call
(`none` = exception or `None` response, both of which keep the rule-based
list).  The second component records whether the LLM was invoked. -/
def advisor_process (useLLM : Bool) (paraphrase : Option (List String))
    (c : AgentContext) : AgentContext × Bool :=
  let lang := c.user_language
  let acc := c.symptoms.foldl (advisorSymptomStep lang) ([], [], c.safety_flags)
  let nutr1 := c.identified_risks.foldl
    (fun nu r =>
      if entryStr "type" r = "nutritional_deficiency" then
        let condName := entryStr "condition" r
        let sources := match lookupA "recommended_sources" r with
          | some (RVal.sm m) => m
          | _ => []
        let srcText := langGet sources lang ""
        if srcText = "" then nu else nu ++ [condName ++ ": " ++ srcText]
      else nu) acc.2.1
  let nutr2 :=
    if c.symptoms.contains "fatigue" || c.symptoms.contains "weakness"
        || c.symptoms.contains "pale" then
      let ironFoods := IRON_RICH_FOODS.map (fun f => f.1 ++ " (" ++ f.2 ++ ")")
      nutr1 ++ ["Iron-rich foods: " ++ String.intercalate ", " (ironFoods.take 5)]
    else nutr1
  let recs := dedupF acc.1
  let nutr := dedupF nutr2
  let attempted := useLLM && !c.degraded_mode && !recs.isEmpty
  let recs2 := if attempted then
      match paraphrase with
      | some lines => let p := lines.take 5
                      if p.isEmpty then recs else p
      | none => recs
    else recs
  let hi1 := setKeyA "nutrition_advice" (RVal.sl (nutr.take 5)) c.health_indicators
  let hi2 :=
    match lookupA "risk_level" hi1 with
    | some (RVal.s lvl) =>
      if lvl = "HIGH" || lvl = "CRITICAL" then
        setKeyA "emergency_contacts" EMERGENCY_SERVICES_CONTACTS hi1
      else hi1
    | _ => hi1
  let nrec := recs2.length
  let nsym := c.symptoms.length
  ({ c with
     recommendations := recs2.take 10
     safety_flags := acc.2.2
     health_indicators := hi2
     decisions := c.decisions ++
       [{ agent_name := "HealthAdvisor"
          decision := s!"Generated {nrec} recommendations for {nsym} symptoms"
          reasoning := "Used WHO guidelines and Pakistan-specific nutrition data. Sources: Open Food Facts, Pakistan Bureau of Statistics"
          confidence := ⟨85, 100⟩
          inputs_used := ["symptoms", "risks", "PAKISTAN_NUTRITION_DATA", "WHO_HEALTH_DATA"]
          language := lang }] },
   attempted)

/-- One row of `fallback_agent.OFFLINE_KNOWLEDGE_BASE` (the fields the agent
code reads: `keywords`, `recommendations`, `pakistan_context`, `tb_warning`,
`dengue_warning`). -/
structure OfflineRow where
  name : String
  keywords : List String
  recommendations : List (String × List String)
  pakistan_context : Option String := none
  tb_warning : Option String := none
  dengue_warning : Option String := none

/-- `fallback_agent.OFFLINE_KNOWLEDGE_BASE`, in source order. -/
def OFFLINE_KNOWLEDGE_BASE : List OfflineRow :=
  [ { name := "fever",
      keywords := ["fever", "bukhar", "بخار", "temperature", "taap", "garam"],
      recommendations :=
        [ ("en", [ "Rest in a cool, comfortable place",
                   "Drink plenty of fluids (water, ORS, juices)",
                   "Take paracetamol for fever (NOT aspirin if dengue suspected)",
                   "Apply cool compress on forehead",
                   "Monitor temperature every 4 hours" ]),
          ("ur", [ "ٹھنڈی آرام دہ جگہ پر لیٹیں",
                   "خوب پانی پیں (پانی، نمکول، جوس)",
                   "پیراسیٹامول لیں (ڈینگی کا شبہ ہو تو اسپرین نہیں)",
                   "ماتھے پر ٹھنڈا کپڑا رکھیں",
                   "ہر 4 گھنٹے درجہ حرارت چیک کریں" ]),
          ("roman_urdu", [ "Thandi jagah par aaram karein",
                   "Khoob paani piyen (paani, ORS, juice)",
                   "Paracetamol lein (dengue ho to aspirin NA lein)",
                   "Mathay par thanda kapra rakhein",
                   "Har 4 ghante temperature check karein" ]) ],
      pakistan_context := some "Typhoid and Dengue are common. Get tested if fever persists." },
    { name := "headache",
      keywords := ["headache", "sir dard", "سر درد", "sar dard", "migraine"],
      recommendations :=
        [ ("en", [ "Rest in a quiet, dark room",
                   "Drink plenty of water (8-10 glasses)",
                   "Apply cold compress on forehead",
                   "Take paracetamol if needed",
                   "CHECK YOUR BLOOD PRESSURE (33% Pakistanis have hypertension)" ]),
          ("ur", [ "پرسکون اندھیرے کمرے میں آرام کریں",
                   "خوب پانی پیں (8-10 گلاس)",
                   "ماتھے پر ٹھنڈا کپڑا رکھیں",
                   "ضرورت ہو تو پیراسیٹامول لیں",
                   "بلڈ پریشر چیک کروائیں (33% پاکستانیوں کو بلڈ پریشر ہے)" ]),
          ("roman_urdu", [ "Pursukoon kamre mein aaram karein",
                   "Khoob paani piyen (8-10 glass)",
                   "Mathay par thanda kapra rakhein",
                   "Paracetamol lein agar zaroorat ho",
                   "BP CHECK KARWAYEIN (33% Pakistanion ko BP hai)" ]) ],
      pakistan_context := some "High BP is common (33%). Always check BP with headaches." },
    { name := "cough",
      keywords := ["cough", "khansi", "کھانسی", "khansna"],
      recommendations :=
        [ ("en", [ "Drink warm fluids (honey + warm water, herbal tea)",
                   "Steam inhalation 2-3 times daily",
                   "Gargle with warm salt water",
                   "Use honey (1-2 teaspoons) for throat",
                   "Cover mouth when coughing" ]),
          ("ur", [ "گرم مشروبات پیں (شہد + گرم پانی، قہوہ)",
                   "بھاپ لیں دن میں 2-3 بار",
                   "نمک کے گرم پانی سے غرارے کریں",
                   "شہد (1-2 چمچ) گلے کے لیے لیں",
                   "کھانستے وقت منہ ڈھانپیں" ]),
          ("roman_urdu", [ "Garam mashroobat piyen (shehad + garam paani)",
                   "Bhaap lein din mein 2-3 baar",
                   "Namak ke garam paani se ghararay karein",
                   "Shehad galay ke liye lein",
                   "Khanstay waqt munh dhaampein" ]) ],
      pakistan_context := some "Pakistan has 5th highest TB burden. If cough >2 weeks with weight loss, GET TB TEST!",
      tb_warning := some "TB ALERT: 2 hafte se zyada khansi + wajan kam + raat ko paseena = TB TEST ZAROOR KARWAYEIN" },
    { name := "diarrhea",
      keywords := ["diarrhea", "dast", "دست", "loose motion", "pichkari", "patla pakhana"],
      recommendations :=
        [ ("en", [ "START ORS IMMEDIATELY after every loose stool",
                   "Home ORS: 1L water + ½ tsp salt + 6 tbsp sugar",
                   "Continue breastfeeding for babies",
                   "Give Zinc for 10-14 days (children)",
                   "Wash hands with soap frequently" ]),
          ("ur", [ "فوری نمکول دیں ہر پتلے پاخانے کے بعد",
                   "گھر کا نمکول: 1 لیٹر پانی + آدھا چمچ نمک + 6 چمچ چینی",
                   "بچوں کو دودھ پلانا جاری رکھیں",
                   "زنک 10-14 دن دیں (بچوں کو)",
                   "صابن سے ہاتھ دھوتے رہیں" ]),
          ("roman_urdu", [ "FORI ORS dein har patle pakhane ke baad",
                   "Ghar ka ORS: 1 liter paani + aadha chamach namak + 6 chamach cheeni",
                   "Bachon ko doodh pilana jari rakhein",
                   "Zinc 10-14 din dein (bachon ko)",
                   "Sabun se haath dhote rahein" ]) ],
      pakistan_context := some "Diarrhea kills 53,000 children/year in Pakistan. ORS saves lives!" },
    { name := "fatigue",
      keywords := ["fatigue", "tired", "thakan", "تھکاوٹ", "kamzori", "کمزوری", "weakness"],
      recommendations :=
        [ ("en", [ "Ensure 7-8 hours quality sleep",
                   "GET TESTED FOR ANEMIA (41% Pakistani women affected)",
                   "Get Vitamin D checked (66% are deficient)",
                   "Eat iron-rich foods: liver (kaleji), spinach (palak), chickpeas (chana)",
                   "Morning sunlight 15-20 min for Vitamin D" ]),
          ("ur", [ "7-8 گھنٹے اچھی نیند لیں",
                   "خون کی کمی کا ٹیسٹ کروائیں (41% پاکستانی خواتین میں ہے)",
                   "وٹامن ڈی چیک کروائیں (66% میں کمی ہے)",
                   "آئرن والی غذائیں کھائیں: کلیجی، پالک، چنے",
                   "صبح 15-20 منٹ دھوپ لیں وٹامن ڈی کے لیے" ]),
          ("roman_urdu", [ "7-8 ghante achi neend lein",
                   "Khoon ki kami ka TEST KARWAYEIN (41% women mein hai)",
                   "Vitamin D check karwayein (66% mein kami hai)",
                   "Iron wali ghizayein khayein: kaleji, palak, chanay",
                   "Subah 15-20 minute dhoop lein Vitamin D ke liye" ]) ],
      pakistan_context := some "66% Pakistanis have Vitamin D deficiency, 41% women have anemia. GET TESTED!" },
    { name := "stomach_pain",
      keywords := ["stomach pain", "pait dard", "پیٹ درد", "pet dard", "abdominal", "maida"],
      recommendations :=
        [ ("en", [ "Rest and avoid heavy meals",
                   "Apply warm compress on abdomen",
                   "Drink mint tea or ajwain water",
                   "Avoid spicy and oily foods",
                   "Eat small, frequent meals" ]),
          ("ur", [ "آرام کریں اور بھاری کھانے سے پرہیز",
                   "پیٹ پر گرم کپڑا رکھیں",
                   "پودینے کی چائے یا اجوائن کا پانی پیں",
                   "مصالحے دار اور تلی ہوئی غذا سے پرہیز",
                   "تھوڑا تھوڑا بار بار کھائیں" ]),
          ("roman_urdu", [ "Aaram karein aur bhaari khane se parhair",
                   "Pait par garam kapra rakhein",
                   "Pudine ki chai ya ajwain ka paani piyen",
                   "Masaledar aur tala hua khana na khayein",
                   "Thora thora baar baar khayein" ]) ] },
    { name := "body_aches",
      keywords := ["body ache", "jism mein dard", "جسم میں درد", "badan dard", "joint pain", "joron mein dard"],
      recommendations :=
        [ ("en", [ "Complete bed rest",
                   "Stay hydrated",
                   "Take paracetamol for pain",
                   "If with high fever (Aug-Nov), GET DENGUE TEST",
                   "Warm compress on affected areas" ]),
          ("ur", [ "مکمل آرام کریں",
                   "پانی خوب پیں",
                   "درد کے لیے پیراسیٹامول لیں",
                   "تیز بخار ہو (اگست-نومبر) تو ڈینگی ٹیسٹ کروائیں",
                   "متاثرہ جگہ پر گرم کپڑا رکھیں" ]),
          ("roman_urdu", [ "Mukammal aaram karein",
                   "Paani khoob piyen",
                   "Dard ke liye paracetamol lein",
                   "Tez bukhar ho (Aug-Nov) to DENGUE TEST karwayein",
                   "Mutasira jagah par garam kapra rakhein" ]) ],
      dengue_warning := some "Aug-Nov mein tez bukhar + shadeed jism dard = DENGUE TEST! ASPIRIN NA LEIN!" },
    { name := "vomiting",
      keywords := ["vomit", "ulti", "الٹی", "qai", "throwing up"],
      recommendations :=
        [ ("en", [ "Rest and don" ++ sqc ++ "t eat for 1-2 hours",
                   "Sip small amounts of water or ORS",
                   "Avoid solid food until vomiting stops",
                   "Try ginger tea or mint tea",
                   "Gradually start bland foods (rice, toast)" ]),
          ("ur", [ "آرام کریں اور 1-2 گھنٹے کچھ نہ کھائیں",
                   "تھوڑا تھوڑا پانی یا نمکول پیں",
                   "الٹی بند ہونے تک ٹھوس غذا نہ کھائیں",
                   "ادرک کی چائے یا پودینے کی چائے لیں",
                   "آہستہ آہستہ ہلکا کھانا (چاول، ٹوسٹ) شروع کریں" ]),
          ("roman_urdu", [ "Aaram karein aur 1-2 ghante kuch na khayein",
                   "Thora thora paani ya ORS piyen",
                   "Ulti band hone tak solid khana na khayein",
                   "Adrak ki chai ya pudine ki chai lein",
                   "Ahista ahista halka khana shuru karein" ]) ] },
    { name := "jaundice",
      keywords := ["jaundice", "yarqan", "یرقان", "yellow eyes", "peeli aankhen"],
      recommendations :=
        [ ("en", [ "Complete bed rest",
                   "Drink plenty of fluids (sugarcane juice, coconut water)",
                   "Avoid oily, fried foods",
                   "GET HEPATITIS B & C TESTS",
                   "Do NOT share razors or toothbrushes" ]),
          ("ur", [ "مکمل آرام کریں",
                   "خوب پانی پیں (گنے کا رس، ناریل پانی)",
                   "تلی ہوئی غذا سے پرہیز",
                   "ہیپاٹائٹس بی اور سی ٹیسٹ کروائیں",
                   "استرا اور ٹوتھ برش شیئر نہ کریں" ]),
          ("roman_urdu", [ "Mukammal aaram karein",
                   "Khoob paani piyen (gannay ka ras, nariyal paani)",
                   "Tali hui ghiza se parhair",
                   "HEPATITIS B & C TEST KARWAYEIN",
                   "Ustra aur toothbrush share na karein" ]) ],
      pakistan_context := some "12 million Pakistanis have Hepatitis C. IT IS NOW CURABLE in 12 weeks!" },
    { name := "dizziness",
      keywords := ["dizzy", "chakkar", "چکر", "vertigo", "giddy"],
      recommendations :=
        [ ("en", [ "Sit or lie down immediately",
                   "Drink water",
                   "Check blood pressure",
                   "Check for anemia (very common in Pakistan)",
                   "Avoid sudden movements" ]),
          ("ur", [ "فوری بیٹھ جائیں یا لیٹ جائیں",
                   "پانی پیں",
                   "بلڈ پریشر چیک کروائیں",
                   "خون کی کمی چیک کروائیں (بہت عام ہے)",
                   "اچانک حرکت سے بچیں" ]),
          ("roman_urdu", [ "Fori baith jayein ya lait jayein",
                   "Paani piyen",
                   "BP check karwayein",
                   "Khoon ki kami check karwayein (bohat aam hai)",
                   "Achanak harkat se bachein" ]) ],
      pakistan_context := some "Anemia (41% women) and Hypertension (33% adults) are common causes. Get both checked!" } ]

/-- `fallback_agent.EMERGENCY_KEYWORDS` flattened in dict-value order
(`en`, `ur`, `roman_urdu`). -/
def EMERGENCY_KEYWORDS : List String :=
  [ "chest pain", "can" ++ sqc ++ "t breathe", "unconscious", "severe bleeding",
    "heart attack", "stroke", "suicide", "seizure", "convulsion",
    "سینے میں درد", "سانس نہیں", "بے ہوش", "شدید خون", "دل کا دورہ", "فالج",
    "seene mein dard", "saans nahi", "behosh", "shadeed khoon",
    "heart attack", "falij" ]

/-- `OfflineHelperAgent._is_emergency`. -/
def offline_is_emergency (text : List Char) : Bool :=
  EMERGENCY_KEYWORDS.any (fun kw => containsSub kw.data text)

/-- `OfflineHelperAgent._get_emergency_message`. -/
def get_emergency_message (language : String) : String :=
  langGet
    [ ("en", "⚠️ EMERGENCY: Please call 1122 (Rescue) or 115 (Edhi) immediately, or go to the nearest hospital!"),
      ("ur", "⚠️ ایمرجنسی: فوری 1122 (ریسکیو) یا 115 (ایدھی) کال کریں، یا قریبی ہسپتال جائیں!"),
      ("roman_urdu", "⚠️ EMERGENCY: Fori 1122 (Rescue) ya 115 (Edhi) call karein, ya hospital jayein!") ]
    language ""

/-- `OfflineHelperAgent._get_general_guidance`. -/
def get_general_guidance (language : String) : List String :=
  langGet
    [ ("en", [ "Rest and stay hydrated",
               "Monitor your symptoms",
               "If symptoms persist or worsen, consult a doctor",
               "Call 1122 for any emergency" ]),
      ("ur", [ "آرام کریں اور پانی پیتے رہیں",
               "علامات پر نظر رکھیں",
               "علامات جاری رہیں یا بڑھیں تو ڈاکٹر سے ملیں",
               "ایمرجنسی میں 1122 کال کریں" ]),
      ("roman_urdu", [ "Aaram karein aur paani peete rahein",
               "Symptoms par nazar rakhein",
               "Symptoms jari rahein ya barhein to doctor se milein",
               "Emergency mein 1122 call karein" ]) ]
    language []

/-- The scanned text of the fallback agent:
`(translated_input or user_input).lower()`. -/
def offlineScanText (c : AgentContext) : List Char :=
  lowerData (match c.translated_input with
    | some t => if t = "" then c.user_input else t
    | none => c.user_input)

/-- The per-condition loop of `OfflineHelperAgent.process`:
`(matched_conditions, recommendations, safety_flags)`. -/
def offlineStep (lang : String) (text : List Char)
    (acc : List String × List String × List String) (row : OfflineRow) :
    List String × List String × List String :=
  if row.keywords.any (fun kw => containsSub kw.data text) then
    let matched := acc.1 ++ [row.name]
    let recs := acc.2.1 ++ langGet row.recommendations lang []
    let flags1 := match row.pakistan_context with
      | some pc => acc.2.2 ++ ["PAKISTAN_CONTEXT: " ++ pc]
      | none => acc.2.2
    let flags2 := [row.tb_warning, row.dengue_warning].foldl
      (fun fl w => match w with
        | some t => fl ++ [t]
        | none => fl) flags1
    (matched, recs, flags2)
  else acc

/-- `OfflineHelperAgent.process`. -/
def fallback_process (c : AgentContext) : AgentContext :=
  let text := offlineScanText c
  let lang := c.user_language
  if offline_is_emergency text then
    { c with
      is_emergency := true
      safety_flags := c.safety_flags ++ ["EMERGENCY_DETECTED_OFFLINE"]
      recommendations := [get_emergency_message lang] }
  else
    let acc := OFFLINE_KNOWLEDGE_BASE.foldl (offlineStep lang text) ([], [], c.safety_flags)
    let matched := acc.1
    let recs0 := if acc.2.1.isEmpty then get_general_guidance lang else acc.2.1
    let recs := dedupF recs0
    let notice := langGet
      [ ("en", "Note: Operating in offline mode with limited analysis. For comprehensive assessment, please consult a healthcare professional."),
        ("ur", "نوٹ: آف لائن موڈ میں محدود تجزیہ۔ مکمل جائزے کے لیے ڈاکٹر سے ملیں۔"),
        ("roman_urdu", "Note: Offline mode mein limited analysis. Complete check ke liye doctor se milein.") ]
      lang ""
    let nmatched := matched.length
    let matchedStr := "[" ++ String.intercalate ", " matched ++ "]"
    { c with
      symptoms := matched
      recommendations := recs.take 10
      degraded_mode := true
      safety_flags := acc.2.2 ++ [notice]
      decisions := c.decisions ++
        [{ agent_name := "OfflineHelper"
           decision := s!"Offline analysis: matched {nmatched} conditions"
           reasoning := s!"Used offline knowledge base with WHO/Pakistan health data. Matched: {matchedStr}"
           confidence := ⟨7, 10⟩
           inputs_used := ["user_input", "OFFLINE_KNOWLEDGE_BASE", "WHO_HEALTH_DATA", "PAKISTAN_HEALTH_STATISTICS"]
           language := lang }] }

/-- JSON-like values of the response envelopes. -/
inductive JVal where
  | s : String → JVal
  | b : Bool → JVal
  | f : Frac → JVal
  | sl : List String → JVal
  | obj : List (String × JVal) → JVal
  | objList : List (List (String × JVal)) → JVal

/-- Embed an `RVal` into a response value. -/
def rvalToJ : RVal → JVal
  | RVal.s v => JVal.s v
  | RVal.f v => JVal.f v
  | RVal.sl v => JVal.sl v
  | RVal.sm m => JVal.obj (m.map (fun kv => (kv.1, JVal.s kv.2)))

/-- A response is a top-level string-keyed dict. -/
abbrev Response := List (String × JVal)

/-- `MEDICAL_SAFETY_CONFIG["disclaimers"]` (`app/config.py`). -/
def DISCLAIMERS : List (String × String) :=
  [ ("en", "This is not medical advice. Please consult a healthcare professional for proper diagnosis."),
    ("ur", "یہ طبی مشورہ نہیں ہے۔ براہ کرم صحیح تشخیص کے لیے ڈاکٹر سے مشورہ کریں۔"),
    ("roman_urdu", "Yeh medical advice nahi hai. Doctor se zaroor milein.") ]

/-- `AgentOrchestrator._calculate_overall_risk`. -/
def calculate_overall_risk (c : AgentContext) : String :=
  if c.is_emergency then "CRITICAL"
  else if c.identified_risks.isEmpty then "LOW"
  else if 0 < c.identified_risks.countP (fun r => ((Frac.ofInt 7).blt (getSeverity r) : Bool))
    then "HIGH"
  else if 1 < c.identified_risks.countP (fun r => ((Frac.ofInt 4).blt (getSeverity r) : Bool))
    then "MEDIUM"
  else "LOW"

/-- `AgentOrchestrator._simplify_recommendations` (both branches return the
recommendation list unchanged). -/
def simplify_recommendations (c : AgentContext) : List String :=
  c.recommendations

/-- `AgentOrchestrator._generate_english_summary`. -/
def generate_english_summary (c : AgentContext) : String :=
  let stext := if c.symptoms.isEmpty then "general health query"
               else String.intercalate ", " (c.symptoms.take 3)
  let rc := c.identified_risks.length
  let recc := c.recommendations.length
  s!"Based on your {stext}, we identified {rc} potential risk(s) and prepared {recc} recommendation(s) for you."

/-- `AgentOrchestrator._generate_urdu_summary`. -/
def generate_urdu_summary (c : AgentContext) : String :=
  let stext := if c.symptoms.isEmpty then "صحت کا سوال"
               else String.intercalate "، " (c.symptoms.take 3)
  let rc := c.identified_risks.length
  let recc := c.recommendations.length
  s!"آپ کی {stext} کی بنیاد پر، ہم نے {rc} ممکنہ خطرات کی نشاندہی کی اور آپ کے لیے {recc} سفارشات تیار کیں۔"

/-- `AgentOrchestrator._generate_roman_urdu_summary`. -/
def generate_roman_urdu_summary (c : AgentContext) : String :=
  let stext := if c.symptoms.isEmpty then "sehat ka sawal"
               else String.intercalate ", " (c.symptoms.take 3)
  let rc := c.identified_risks.length
  let recc := c.recommendations.length
  s!"Aap ki {stext} ki buniyad par, humne {rc} mumkina khatre aur {recc} recommendations tayyar ki hain."

/-- The language dispatch of `AgentOrchestrator._generate_explanations`. -/
def generate_summary (c : AgentContext) : String :=
  if c.user_language = "ur" then generate_urdu_summary c
  else if c.user_language = "roman_urdu" then generate_roman_urdu_summary c
  else generate_english_summary c

/-- Percentage rendering `f"{confidence * 100:.0f}%"` (every embedded
confidence is a whole percentage, where half-even and half-up agree). -/
def percentStr (conf : Frac) : String :=
  let p := conf.round100
  s!"{p}%"

/-- One `agent_reasoning` entry of `_generate_explanations`. -/
def reasoningEntry (d : AgentDecision) : List (String × JVal) :=
  [ ("agent", JVal.s d.agent_name),
    ("decision", JVal.s d.decision),
    ("reasoning", JVal.s d.reasoning),
    ("confidence", JVal.s (percentStr d.confidence)) ]

/-- One `decision_trace` entry (`AgentDecision.dict()`; the timestamp field
is not modelled). -/
def traceEntry (d : AgentDecision) : List (String × JVal) :=
  [ ("agent_name", JVal.s d.agent_name),
    ("decision", JVal.s d.decision),
    ("reasoning", JVal.s d.reasoning),
    ("confidence", JVal.f d.confidence),
    ("inputs_used", JVal.sl d.inputs_used),
    ("language", JVal.s d.language) ]

/-- `AgentOrchestrator._build_response` (`processing_time_seconds` is the
opaque parameter `ptime`). -/
def build_response (c : AgentContext) (ptime : Frac) : Response :=
  let disclaimer := langGet DISCLAIMERS c.user_language ""
  let summary := generate_summary c
  let base : Response :=
    [ ("success", JVal.b true),
      ("session_id", JVal.s c.session_id),
      ("mode", JVal.s (if c.degraded_mode then "degraded" else "full")),
      ("language", JVal.s c.user_language),
      ("analysis", JVal.obj
        [ ("symptoms_identified", JVal.sl c.symptoms),
          ("health_indicators", JVal.obj (c.health_indicators.map (fun kv => (kv.1, rvalToJ kv.2)))),
          ("original_input", JVal.s c.user_input) ]),
      ("risks", JVal.obj
        [ ("identified_risks", JVal.objList (c.identified_risks.map (List.map (fun kv => (kv.1, rvalToJ kv.2))))),
          ("risk_level", JVal.s (calculate_overall_risk c)),
          ("safety_flags", JVal.sl c.safety_flags) ]),
      ("recommendations", JVal.obj
        [ ("preventive_guidance", JVal.sl c.recommendations),
          ("in_simple_language", JVal.sl (simplify_recommendations c)) ]),
      ("explanation", JVal.obj
        [ ("summary", JVal.s summary),
          ("agent_reasoning", JVal.objList (c.decisions.map reasoningEntry)),
          ("decision_trace", JVal.objList (c.decisions.map traceEntry)) ]),
      ("disclaimer", JVal.s disclaimer),
      ("processing_time_seconds", JVal.f ptime),
      ("agents_used", JVal.sl (c.decisions.map (fun d => d.agent_name))) ]
  if c.user_language = "ur" || c.user_language = "roman_urdu" then
    let nr := c.identified_risks.length
    base ++ [ ("response_urdu", JVal.obj
      [ ("khulaasa", JVal.s summary),
        ("khatraat", JVal.s s!"{nr} khatre"),
        ("mashwaray", JVal.f (Frac.ofInt c.recommendations.length)) ]) ]
  else base

/-- The emergency message table of
`AgentOrchestrator._build_emergency_response`. -/
def EMERGENCY_MESSAGES : List (String × String) :=
  [ ("en", "⚠️ EMERGENCY: Your symptoms may require immediate medical attention. Please call emergency services (1122) or visit the nearest hospital immediately."),
    ("ur", "⚠️ ایمرجنسی: آپ کی علامات کو فوری طبی توجہ کی ضرورت ہو سکتی ہے۔ براہ کرم ایمرجنسی سروسز (1122) کو کال کریں یا فوراً قریبی ہسپتال جائیں۔"),
    ("roman_urdu", "⚠️ EMERGENCY: Aap ki symptoms ko fori medical attention chahiye. 1122 call karein ya hospital jayein.") ]

/-- `AgentOrchestrator._build_emergency_response` (the emergency
short-circuit schema). -/
def build_emergency_response (c : AgentContext) : Response :=
  [ ("success", JVal.b true),
    ("is_emergency", JVal.b true),
    ("session_id", JVal.s c.session_id),
    ("message", JVal.s (langGet EMERGENCY_MESSAGES c.user_language "")),
    ("action_required", JVal.s "SEEK_IMMEDIATE_MEDICAL_HELP"),
    ("emergency_contacts", JVal.obj
      [ ("pakistan_emergency", JVal.s "1122"),
        ("edhi", JVal.s "115") ]),
    ("safety_flags", JVal.sl c.safety_flags) ]

/-- Labels of external-backend invocations, for the zero-call claims. -/
abbrev Trace := List String

/-- A pipeline stage: may update the context, may raise (`Except.error`),
and reports the backend calls it issued. -/
abbrev Stage := AgentContext → Except String (AgentContext × Trace)

/-- The embedded Safety Guard pre-check stage (no backend calls). -/
def safetyStage : Stage := fun c => Except.ok (safety_process c, [])

/-- The embedded Risk Assessor stage (no backend calls). -/
def riskStage : Stage := fun c => Except.ok (risk_process c, [])

/-- The embedded Health Advisor stage in the full pipeline
(`vertex_service` present); it issues one `generate` call exactly when it
attempts LLM personalisation. -/
def advisorStage (paraphrase : Option (List String)) : Stage := fun c =>
  let r := advisor_process true paraphrase c
  Except.ok (r.1, if r.2 then ["llm.generate"] else [])

/-- The embedded Safety Guard post-check stage (no backend calls). -/
def postStage : Stage := fun c => Except.ok (validate_recommendations c, [])

/-- The embedded Offline Helper stage: rule-based only, issues no backend
calls. -/
def fallbackStage : Stage := fun c => Except.ok (fallback_process c, [])

/-- `AgentOrchestrator._process_degraded`: set the degraded flag, run the
fallback stage, build the standard envelope.  A fallback failure is
terminal (propagates). -/
def process_degraded (fb : Stage) (ptime : Frac) (c : AgentContext) :
    Except String (Response × Trace) :=
  match fb { c with degraded_mode := true } with
  | Except.ok (c', t) => Except.ok (build_response c' ptime, t)
  | Except.error e => Except.error e

/-- Prepend already-issued backend calls to a pipeline outcome. -/
def prependTrace (t : Trace) :
    Except String (Response × Trace) → Except String (Response × Trace)
  | Except.ok (r, t') => Except.ok (r, t ++ t')
  | Except.error e => Except.error e

/-- `AgentOrchestrator.process_health_query` from the point where the
session context exists (language detection/translation are external
collaborators).  `vertexNone` models `vertex_ai is None`; `healthOK` the
health-probe outcome (probed only when the service exists); the pipeline
stages are parameters so that claims can quantify over stage behaviour
(the symptom stage is not separately embedded — every claim is independent
of its output).  The `try` block covers exactly the symptom, risk, advisor
and post-check stages; the pre-check runs outside it, and the except
handler retries the whole request in degraded mode from the context
returned by the last completed stage. -/
def process_health_query (pre sym risk adv post fb : Stage)
    (vertexNone healthOK : Bool) (ptime : Frac) (c0 : AgentContext) :
    Except String (Response × Trace) :=
  let c := { c0 with degraded_mode := vertexNone }
  if c.degraded_mode then process_degraded fb ptime c
  else if !healthOK then prependTrace ["llm.health_check"] (process_degraded fb ptime c)
  else
    match pre c with
    | Except.error e => Except.error e
    | Except.ok (c1, t1) =>
      if c1.is_emergency then
        Except.ok (build_emergency_response c1, "llm.health_check" :: t1)
      else
        match sym c1 with
        | Except.error _ => prependTrace ("llm.health_check" :: t1) (process_degraded fb ptime c1)
        | Except.ok (c2, t2) =>
          match risk c2 with
          | Except.error _ => prependTrace ("llm.health_check" :: (t1 ++ t2)) (process_degraded fb ptime c2)
          | Except.ok (c3, t3) =>
            match adv c3 with
            | Except.error _ => prependTrace ("llm.health_check" :: (t1 ++ t2 ++ t3)) (process_degraded fb ptime c3)
            | Except.ok (c4, t4) =>
              match post c4 with
              | Except.error _ => prependTrace ("llm.health_check" :: (t1 ++ t2 ++ t3 ++ t4)) (process_degraded fb ptime c4)
              | Except.ok (c5, t5) =>
                Except.ok (build_response c5 ptime,
                  "llm.health_check" :: (t1 ++ t2 ++ t3 ++ t4 ++ t5))

/-- Top-level string field of a response. -/
def respStr (r : Response) (k : String) : Option String :=
  match lookupA k r with
  | some (JVal.s v) => some v
  | _ => none

/-- Whether a top-level key is present in a response. -/
def respHasKey (r : Response) (k : String) : Bool :=
  (lookupA k r).isSome

/-- Number of top-level occurrences of a key in a response. -/
def respKeyCount (r : Response) (k : String) : Nat :=
  (r.filter (fun kv => kv.1 = k)).length

/-- The `recommendations.preventive_guidance` list of an envelope. -/
def respRecommendations (r : Response) : List String :=
  match lookupA "recommendations" r with
  | some (JVal.obj o) =>
    match lookupA "preventive_guidance" o with
    | some (JVal.sl l) => l
    | _ => []
  | _ => []

/-- The `risks.risk_level` field of an envelope. -/
def respRiskLevel (r : Response) : Option String :=
  match lookupA "risks" r with
  | some (JVal.obj o) =>
    match lookupA "risk_level" o with
    | some (JVal.s v) => some v
    | _ => none
  | _ => none

/-- A knowledge document as consumed by `RAGService._keyword_search`
(`id`/`source` metadata are carried but never read by the search). -/
structure KDoc where
  id : String
  category : String
  content : String
  keywords : List String
deriving DecidableEq, Repr

/-- Python `str.split()`: split on whitespace runs, dropping empty pieces. -/
def splitWsAux : List Char → List Char → List String
  | [], acc => if acc.isEmpty then [] else [String.mk acc.reverse]
  | ch :: t, acc =>
    if ch.isWhitespace then
      if acc.isEmpty then splitWsAux t []
      else String.mk acc.reverse :: splitWsAux t []
    else splitWsAux t (ch :: acc)

/-- Python `str.split()` on a character list. -/
def splitWs (cs : List Char) : List String := splitWsAux cs []

/-- The distinct words of `query.lower().split()`
(`set(...)`, modelled as the first-occurrence dedup of the word list:
only the cardinality of intersections with it is ever used). -/
def queryWords (q : String) : List String := dedupF (splitWs (lowerData q))

/-- `score = keyword_matches * 2 + content_matches * 0.5` of
`RAGService._keyword_search`, with the two counts being the sizes of the
intersections of the distinct query words with the document keyword set and
content word set. -/
def kwScore (q : String) (doc : KDoc) : Frac :=
  let qws := queryWords q
  let keyword_matches : Int := (qws.filter (fun w => doc.keywords.contains w)).length
  let content_matches : Int := (qws.filter (fun w => (splitWs (lowerData doc.content)).contains w)).length
  ((Frac.ofInt keyword_matches).mul (Frac.ofInt 2)).add
    ((Frac.ofInt content_matches).mul ⟨1, 2⟩)

/-- The category filter of `_keyword_search`: skip iff the filter is truthy
and the category differs (an empty-string filter is falsy in Python and
filters nothing). -/
def categoryPass (filt : Option String) (doc : KDoc) : Bool :=
  match filt with
  | none => true
  | some f => if f = "" then true else doc.category = f

/-- The scored document list of `_keyword_search` before sorting:
category-passing documents with strictly positive score, in document
order. -/
def scoredDocs (q : String) (filt : Option String) (docs : List KDoc) :
    List (KDoc × Frac) :=
  docs.filterMap (fun d =>
    if categoryPass filt d then
      let s := kwScore q d
      if (Frac.ofInt 0).blt s then some (d, s) else none
    else none)

/-- `RAGService._keyword_search`: score, keep positive, sort descending
(stably), return the first `top_k`. -/
def keyword_search (q : String) (top_k : Nat) (filt : Option String)
    (docs : List KDoc) : List (KDoc × Frac) :=
  (sortDescBy (fun p => p.2) (scoredDocs q filt docs)).take top_k

/-- Rational value of one condition row's severity contribution. -/
def condContribQ (symptoms : List String) (cr : CondRisk) : ℚ :=
  let m := symptoms.filter (triggerMatch cr.trigger_symptoms)
  if m.isEmpty then 0
  else (severityWeight cr.risk_level : ℚ) * m.length / cr.trigger_symptoms.length

/-- Rational value of one nutrition row's severity contribution. -/
def nutContribQ (symptoms : List String) (nr : NutRisk) : ℚ :=
  if nr.symptoms.any (fun s => symptoms.contains s) then 1 else 0

/-- Rank of the aggregate risk level strings, LOW < MEDIUM < HIGH < CRITICAL. -/
def levelRank (s : String) : Nat :=
  if s = "CRITICAL" then 3 else if s = "HIGH" then 2 else if s = "MEDIUM" then 1 else 0

/-- The aggregate risk level string the Risk Assessor stored in
`health_indicators["risk_level"]`. -/
def contextRiskLevel (c : AgentContext) : String :=
  match lookupA "risk_level" c.health_indicators with
  | some (RVal.s v) => v
  | _ => ""

/-- Subset context for the monotonicity witness. -/
def ctxMonoS : AgentContext :=
  { session_id := "w4", user_language := "en", user_input := "sir dard",
    translated_input := some "headache", symptoms := ["headache"] }

/-- Superset context for the monotonicity witness. -/
def ctxMonoT : AgentContext :=
  { session_id := "w4", user_language := "en", user_input := "sir dard bukhar",
    translated_input := some "headache fever", symptoms := ["headache", "fever"] }

/-- A non-emergency context whose symptom set drives the Risk Assessor's
aggregate level to HIGH (severity score ≈ 6.62). -/
def ctxHigh : AgentContext :=
  { session_id := "s3", user_language := "en",
    user_input := "bukhar sir dard thakan chakkar",
    translated_input := some "fever headache fatigue dizziness",
    symptoms := ["fever", "headache", "fatigue", "dizziness"] }

/-- A stage that succeeds without changing the context (used to instantiate
stage parameters that a run never reaches). -/
def okStage : Stage := fun c => Except.ok (c, [])

/-- A concrete instantiation of the (unembedded) symptom stage: extracts
the single category `fever` (what the source extractor returns for the
input "fever"). -/
def symStubFever : Stage := fun c => Except.ok ({ c with symptoms := ["fever"] }, [])

/-- The response of a successful pipeline outcome. -/
def runResp (x : Except String (Response × Trace)) : Response :=
  match x with
  | Except.ok (r, _) => r
  | Except.error _ => []

/-- Forget the trace of a pipeline outcome. -/
def respOf (x : Except String (Response × Trace)) : Except String Response :=
  x.map Prod.fst

/-- Context for the C6 witness: an input containing the emergency phrase
"chest pain". -/
def ctxChest : AgentContext :=
  { session_id := "s6", user_language := "en",
    user_input := "I have chest pain since morning",
    translated_input := some "I have chest pain since morning" }

/-- A context with no emergency content, for the error-path results. -/
def ctxPlain : AgentContext :=
  { session_id := "s7", user_language := "en", user_input := "hello",
    translated_input := some "hello" }

/-- A stage that raises. -/
def errStage : Stage := fun _ => Except.error "boom"

/-- Degraded-path context whose input contains the emergency phrase
"chest pain". -/
def ctxChestD : AgentContext :=
  { session_id := "s1c", user_language := "en", user_input := "chest pain",
    translated_input := some "chest pain" }

/-- Context for the C2 counterexample run. -/
def ctxDup : AgentContext :=
  { session_id := "s2", user_language := "en", user_input := "bukhar",
    translated_input := some "fever" }

/-! ### General lemmas about the modelling helpers. -/

theorem Frac.le_eq_true_iff {a b : Frac} (ha : 0 < a.d) (hb : 0 < b.d) :
    a.le b = true ↔ a.toQ ≤ b.toQ := by
  have ha' : (0 : ℚ) < (a.d : ℚ) := by exact_mod_cast ha
  have hb' : (0 : ℚ) < (b.d : ℚ) := by exact_mod_cast hb
  simp only [Frac.le, decide_eq_true_eq, Frac.toQ]
  rw [div_le_div_iff₀ ha' hb']
  constructor
  · intro h
    exact_mod_cast h
  · intro h
    exact_mod_cast h

theorem Frac.blt_eq_true_iff {a b : Frac} (ha : 0 < a.d) (hb : 0 < b.d) :
    a.blt b = true ↔ a.toQ < b.toQ := by
  have ha' : (0 : ℚ) < (a.d : ℚ) := by exact_mod_cast ha
  have hb' : (0 : ℚ) < (b.d : ℚ) := by exact_mod_cast hb
  simp only [Frac.blt, decide_eq_true_eq, Frac.toQ]
  rw [div_lt_div_iff₀ ha' hb']
  constructor
  · intro h
    exact_mod_cast h
  · intro h
    exact_mod_cast h

theorem Frac.toQ_add {a b : Frac} (ha : a.d ≠ 0) (hb : b.d ≠ 0) :
    (a.add b).toQ = a.toQ + b.toQ := by
  have ha' : (a.d : ℚ) ≠ 0 := Int.cast_ne_zero.mpr ha
  have hb' : (b.d : ℚ) ≠ 0 := Int.cast_ne_zero.mpr hb
  simp only [Frac.add, Frac.toQ]
  push_cast
  field_simp

theorem Frac.toQ_mul (a b : Frac) : (a.mul b).toQ = a.toQ * b.toQ := by
  simp only [Frac.mul, Frac.toQ]
  push_cast
  rw [div_mul_div_comm]

theorem Frac.toQ_ofInt (k : Int) : (Frac.ofInt k).toQ = (k : ℚ) := by
  simp [Frac.ofInt, Frac.toQ]

theorem dedupGo_subset [DecidableEq α] :
    ∀ (l seen : List α), dedupGo seen l ⊆ l
  | [], _ => by simp [dedupGo]
  | a :: t, seen => by
    rw [dedupGo]
    split
    · exact (dedupGo_subset t seen).trans (List.subset_cons_self a t)
    · intro x hx
      rcases List.mem_cons.mp hx with h | h
      · exact h ▸ List.mem_cons_self a t
      · exact List.mem_cons_of_mem a (dedupGo_subset t (a :: seen) h)

theorem dedupF_subset [DecidableEq α] (l : List α) : dedupF l ⊆ l :=
  dedupGo_subset l []

theorem dedupGo_nodup [DecidableEq α] :
    ∀ (l seen : List α),
      (dedupGo seen l).Nodup ∧ ∀ x ∈ dedupGo seen l, x ∉ seen
  | [], _ => by simp [dedupGo]
  | a :: t, seen => by
    rw [dedupGo]
    split
    · exact dedupGo_nodup t seen
    · rename_i hseen
      have ih := dedupGo_nodup t (a :: seen)
      refine ⟨List.nodup_cons.mpr ⟨?_, ih.1⟩, ?_⟩
      · intro hmem
        exact (ih.2 a hmem) (List.mem_cons_self a seen)
      · intro x hx hxseen
        rcases List.mem_cons.mp hx with h | h
        · subst h
          exact hseen (List.elem_eq_true_of_mem hxseen)
        · exact (ih.2 x h) (List.mem_cons_of_mem a hxseen)

theorem dedupF_nodup [DecidableEq α] (l : List α) : (dedupF l).Nodup :=
  (dedupGo_nodup l []).1

theorem insertDesc_perm (key : α → Frac) (x : α) :
    ∀ l : List α, (insertDesc key x l).Perm (x :: l)
  | [] => by simp [insertDesc]
  | y :: l => by
    rw [insertDesc]
    split
    · exact ((insertDesc_perm key x l).cons y).trans (List.Perm.swap x y l)
    · exact List.Perm.refl _

theorem sortDescBy_perm (key : α → Frac) :
    ∀ l : List α, (sortDescBy key l).Perm l
  | [] => by simp [sortDescBy]
  | x :: l => by
    rw [sortDescBy]
    exact (insertDesc_perm key x _).trans ((sortDescBy_perm key l).cons x)

theorem lookupA_setKeyA_self (k : String) (v : α) :
    ∀ m : List (String × α), lookupA k (setKeyA k v m) = some v
  | [] => by simp [setKeyA, lookupA]
  | (k', v') :: t => by
    rw [setKeyA]
    split
    · simp [lookupA]
    · rename_i h
      rw [lookupA, if_neg h]
      exact lookupA_setKeyA_self k v t

theorem lookupA_setKeyA_ne (k k' : String) (v : α) (h : k' ≠ k) :
    ∀ m : List (String × α), lookupA k (setKeyA k' v m) = lookupA k m
  | [] => by simp [setKeyA, lookupA, h]
  | (k'', v'') :: t => by
    rw [setKeyA]
    split
    · rename_i h2
      rw [lookupA, if_neg h, lookupA, h2, if_neg h]
    · rw [lookupA, lookupA]
      split
      · rfl
      · exact lookupA_setKeyA_ne k k' v h t

theorem insertDesc_sorted (key : α → Frac) (x : α) :
    ∀ l : List α, 0 < (key x).d → (∀ y ∈ l, 0 < (key y).d) →
    List.Sorted (fun a b => (key b).toQ ≤ (key a).toQ) l →
    List.Sorted (fun a b => (key b).toQ ≤ (key a).toQ) (insertDesc key x l)
  | [], _, _, _ => by simp [insertDesc]
  | y :: l, hx, hl, hs => by
    rw [insertDesc]
    have hy : 0 < (key y).d := hl y (List.mem_cons_self y l)
    rcases List.sorted_cons.mp hs with ⟨hyl, hsl⟩
    split
    · rename_i hblt
      have hxy : (key x).toQ < (key y).toQ :=
        (Frac.blt_eq_true_iff hx hy).mp hblt
      refine List.sorted_cons.mpr ⟨?_, ?_⟩
      · intro z hz
        have hz' := (insertDesc_perm key x l).mem_iff.mp hz
        rcases List.mem_cons.mp hz' with h | h
        · exact h ▸ le_of_lt hxy
        · exact hyl z h
      · exact insertDesc_sorted key x l hx
          (fun z hz => hl z (List.mem_cons_of_mem y hz)) hsl
    · rename_i hblt
      have hxy : (key y).toQ ≤ (key x).toQ := by
        have : ¬ ((key x).n * (key y).d < (key y).n * (key x).d) := by
          simpa [Frac.blt] using hblt
        have hle : (key y).le (key x) = true := by
          simp [Frac.le]
          omega
        exact (Frac.le_eq_true_iff hy hx).mp hle
      refine List.sorted_cons.mpr ⟨?_, hs⟩
      intro z hz
      rcases List.mem_cons.mp hz with h | h
      · exact h ▸ hxy
      · exact le_trans (hyl z h) hxy

theorem sortDescBy_sorted (key : α → Frac) :
    ∀ l : List α, (∀ y ∈ l, 0 < (key y).d) →
    List.Sorted (fun a b => (key b).toQ ≤ (key a).toQ) (sortDescBy key l)
  | [], _ => by simp [sortDescBy]
  | x :: l, h => by
    rw [sortDescBy]
    exact insertDesc_sorted key x _ (h x (List.mem_cons_self x l))
      (fun z hz => h z (List.mem_cons_of_mem x ((sortDescBy_perm key l).mem_iff.mp hz)))
      (sortDescBy_sorted key l (fun z hz => h z (List.mem_cons_of_mem x hz)))

theorem kwScore_d (q : String) (doc : KDoc) : (kwScore q doc).d = 2 := rfl

theorem mem_scoredDocs {q : String} {filt : Option String} {docs : List KDoc}
    {p : KDoc × Frac} :
    p ∈ scoredDocs q filt docs ↔
      p.1 ∈ docs ∧ categoryPass filt p.1 = true ∧ p.2 = kwScore q p.1 ∧
        (Frac.ofInt 0).blt (kwScore q p.1) = true := by
  constructor
  · intro h
    rcases List.mem_filterMap.mp h with ⟨d, hd, hf⟩
    by_cases hc : categoryPass filt d = true
    · rw [if_pos hc] at hf
      by_cases hb : (Frac.ofInt 0).blt (kwScore q d) = true
      · rw [if_pos hb] at hf
        cases hf
        exact ⟨hd, hc, rfl, hb⟩
      · rw [if_neg hb] at hf
        cases hf
    · rw [if_neg hc] at hf
      cases hf
  · rintro ⟨hd, hc, hp, hb⟩
    refine List.mem_filterMap.mpr ⟨p.1, hd, ?_⟩
    rw [if_pos hc, if_pos hb, ← hp]

/-- C5. For every query, document list, `top_k` and optional category
filter, the keyword strategy scores a category-passing document as
`2 × |distinct query words ∩ keywords| + 0.5 × |distinct query words ∩
content words|`, keeps exactly the documents with strictly positive score,
sorts them descending by score, and returns at most `top_k` of them: the
result has length at most `top_k`, is sorted by non-increasing score, every
returned pair is a category-passing document of the corpus carrying exactly
its formula score which is positive, the result is the `top_k`-truncation
of the sorted scored list, that sorted list is a permutation of the scored
list, and every category-passing positive-score document appears in the
scored list. -/
theorem keyword_search_spec (q : String) (k : Nat) (filt : Option String)
    (docs : List KDoc) :
    (keyword_search q k filt docs).length ≤ k
  ∧ List.Sorted (fun a b : KDoc × Frac => (b.2).toQ ≤ (a.2).toQ)
      (keyword_search q k filt docs)
  ∧ (∀ p ∈ keyword_search q k filt docs,
      p.1 ∈ docs ∧ categoryPass filt p.1 = true ∧ p.2 = kwScore q p.1 ∧
        0 < (p.2).toQ)
  ∧ keyword_search q k filt docs
      = (sortDescBy (fun p => p.2) (scoredDocs q filt docs)).take k
  ∧ (sortDescBy (fun p => p.2) (scoredDocs q filt docs)).Perm
      (scoredDocs q filt docs)
  ∧ (∀ d ∈ docs, categoryPass filt d = true → 0 < (kwScore q d).toQ →
      (d, kwScore q d) ∈ scoredDocs q filt docs) := by
  have hden : ∀ p ∈ scoredDocs q filt docs, 0 < ((fun p : KDoc × Frac => p.2) p).d := by
    intro p hp
    rcases mem_scoredDocs.mp hp with ⟨_, _, hp2, _⟩
    show 0 < (p.2).d
    rw [hp2, kwScore_d]
    norm_num
  have hperm := sortDescBy_perm (fun p : KDoc × Frac => p.2) (scoredDocs q filt docs)
  have hsorted := sortDescBy_sorted (fun p : KDoc × Frac => p.2) (scoredDocs q filt docs) hden
  have hzero : (Frac.ofInt 0).d = 1 := rfl
  have hkd : ∀ d : KDoc, 0 < (kwScore q d).d := by
    intro d
    rw [kwScore_d]
    norm_num
  refine ⟨?_, ?_, ?_, rfl, hperm, ?_⟩
  · exact List.length_take_le k
      (sortDescBy (fun p : KDoc × Frac => p.2) (scoredDocs q filt docs))
  · exact List.Pairwise.sublist (List.take_sublist k _) hsorted
  · intro p hp
    have hp' : p ∈ sortDescBy (fun p : KDoc × Frac => p.2) (scoredDocs q filt docs) :=
      List.mem_of_mem_take hp
    have hps := hperm.mem_iff.mp hp'
    rcases mem_scoredDocs.mp hps with ⟨hd, hc, hp2, hb⟩
    refine ⟨hd, hc, hp2, ?_⟩
    have := (Frac.blt_eq_true_iff (a := Frac.ofInt 0) (b := kwScore q p.1)
      (by rw [hzero]; norm_num) (hkd p.1)).mp hb
    rw [Frac.toQ_ofInt] at this
    rw [hp2]
    exact_mod_cast this
  · intro d hd hc hpos
    refine mem_scoredDocs.mpr ⟨hd, hc, rfl, ?_⟩
    refine (Frac.blt_eq_true_iff (by rw [hzero]; norm_num) (hkd d)).mpr ?_
    rw [Frac.toQ_ofInt]
    exact_mod_cast hpos

theorem severityWeight_pos (rl : String) : 0 < severityWeight rl := by
  unfold severityWeight
  split
  · norm_num
  · split <;> norm_num

theorem trigger_len_pos_of_filter_ne_nil {symptoms : List String} {cr : CondRisk}
    (hne : symptoms.filter (triggerMatch cr.trigger_symptoms) ≠ []) :
    0 < cr.trigger_symptoms.length := by
  obtain ⟨x, hx⟩ := List.exists_mem_of_ne_nil _ hne
  have htm := List.of_mem_filter hx
  rw [triggerMatch] at htm
  rcases Bool.or_eq_true_iff.mp htm with h | h
  · exact List.length_pos.mpr (List.ne_nil_of_mem (List.mem_of_elem_eq_true h))
  · rcases List.any_eq_true.mp h with ⟨y, hy, _⟩
    exact List.length_pos.mpr (List.ne_nil_of_mem hy)

theorem condFold_toQ (symptoms : List String) :
    ∀ (L : List CondRisk) (acc : List (List (String × RVal)) × Frac),
    0 < acc.2.d →
    0 < (L.foldl (condStep symptoms) acc).2.d ∧
    (L.foldl (condStep symptoms) acc).2.toQ
      = acc.2.toQ + (L.map (condContribQ symptoms)).sum
  | [], acc, hacc => by simp [hacc]
  | cr :: L, acc, hacc => by
    rw [List.foldl_cons, List.map_cons, List.sum_cons]
    by_cases hm : (symptoms.filter (triggerMatch cr.trigger_symptoms)).isEmpty
    · have hstep : condStep symptoms acc cr = acc := by
        rw [condStep, if_pos hm]
      have hcontrib : condContribQ symptoms cr = 0 := by
        simp [condContribQ, hm]
      rw [hstep, hcontrib]
      have ih := condFold_toQ symptoms L acc hacc
      exact ⟨ih.1, by rw [ih.2]; ring⟩
    · have hne : symptoms.filter (triggerMatch cr.trigger_symptoms) ≠ [] := by
        simpa [List.isEmpty_iff] using hm
      have ht : 0 < cr.trigger_symptoms.length := trigger_len_pos_of_filter_ne_nil hne
      have htZ : (0 : Int) < (cr.trigger_symptoms.length : Int) := by exact_mod_cast ht
      have hstep : condStep symptoms acc cr =
          (acc.1 ++ [condEntry cr (symptoms.filter (triggerMatch cr.trigger_symptoms))],
           acc.2.add ((Frac.ofInt (severityWeight cr.risk_level)).mul
             ⟨((symptoms.filter (triggerMatch cr.trigger_symptoms)).length : Int),
              (cr.trigger_symptoms.length : Int)⟩)) := by
        rw [condStep, if_neg hm]
      have hbd : ((Frac.ofInt (severityWeight cr.risk_level)).mul
          ⟨((symptoms.filter (triggerMatch cr.trigger_symptoms)).length : Int),
           (cr.trigger_symptoms.length : Int)⟩).d ≠ 0 := by
        simp only [Frac.mul, Frac.ofInt]
        simp only [one_mul]
        omega
      have hd2 : 0 < (acc.2.add ((Frac.ofInt (severityWeight cr.risk_level)).mul
          ⟨((symptoms.filter (triggerMatch cr.trigger_symptoms)).length : Int),
           (cr.trigger_symptoms.length : Int)⟩)).d := by
        simp only [Frac.add, Frac.mul, Frac.ofInt]
        have hacc' := hacc
        positivity
      have ih := condFold_toQ symptoms L
        (acc.1 ++ [condEntry cr (symptoms.filter (triggerMatch cr.trigger_symptoms))],
         acc.2.add ((Frac.ofInt (severityWeight cr.risk_level)).mul
           ⟨((symptoms.filter (triggerMatch cr.trigger_symptoms)).length : Int),
            (cr.trigger_symptoms.length : Int)⟩)) hd2
      rw [hstep]
      refine ⟨ih.1, ?_⟩
      rw [ih.2]
      have htoq : (acc.2.add ((Frac.ofInt (severityWeight cr.risk_level)).mul
          ⟨((symptoms.filter (triggerMatch cr.trigger_symptoms)).length : Int),
           (cr.trigger_symptoms.length : Int)⟩)).toQ
          = acc.2.toQ + condContribQ symptoms cr := by
        rw [Frac.toQ_add (by omega) hbd, Frac.toQ_mul, Frac.toQ_ofInt]
        have hc : condContribQ symptoms cr
            = (severityWeight cr.risk_level : ℚ)
              * ((symptoms.filter (triggerMatch cr.trigger_symptoms)).length : ℚ)
              / (cr.trigger_symptoms.length : ℚ) := by
          simp [condContribQ, hm]
        rw [hc]
        simp only [Frac.toQ]
        push_cast
        ring
      rw [htoq]
      ring

theorem nutFold_toQ (symptoms : List String) :
    ∀ (L : List NutRisk) (acc : List (List (String × RVal)) × Frac),
    0 < acc.2.d →
    0 < (L.foldl (nutStep symptoms) acc).2.d ∧
    (L.foldl (nutStep symptoms) acc).2.toQ
      = acc.2.toQ + (L.map (nutContribQ symptoms)).sum
  | [], acc, hacc => by simp [hacc]
  | nr :: L, acc, hacc => by
    rw [List.foldl_cons, List.map_cons, List.sum_cons]
    by_cases hm : (nr.symptoms.any (fun s => symptoms.contains s)) = true
    · have hstep : nutStep symptoms acc nr
          = (acc.1 ++ [nutEntry nr], acc.2.add (Frac.ofInt 1)) := by
        rw [nutStep, if_pos hm]
      have hd2 : 0 < (acc.2.add (Frac.ofInt 1)).d := by
        simp only [Frac.add, Frac.ofInt]
        omega
      have ih := nutFold_toQ symptoms L
        (acc.1 ++ [nutEntry nr], acc.2.add (Frac.ofInt 1)) hd2
      rw [hstep]
      refine ⟨ih.1, ?_⟩
      rw [ih.2, Frac.toQ_add (by omega) (by simp [Frac.ofInt]), Frac.toQ_ofInt]
      rw [nutContribQ, if_pos hm]
      push_cast
      ring
    · have hstep : nutStep symptoms acc nr = acc := by
        rw [nutStep, if_neg hm]
      have ih := nutFold_toQ symptoms L acc hacc
      rw [hstep, nutContribQ, if_neg hm]
      exact ⟨ih.1, by rw [ih.2]; ring⟩

theorem riskAccum_toQ (symptoms : List String) :
    0 < (riskAccum symptoms).2.d ∧
    (riskAccum symptoms).2.toQ
      = (PAKISTAN_HEALTH_RISKS.map (condContribQ symptoms)).sum
        + (NUTRITION_RISKS.map (nutContribQ symptoms)).sum := by
  rw [riskAccum]
  have h1 := condFold_toQ symptoms PAKISTAN_HEALTH_RISKS ([], Frac.ofInt 0)
    (by simp [Frac.ofInt])
  have h2 := nutFold_toQ symptoms NUTRITION_RISKS _ h1.1
  refine ⟨h2.1, ?_⟩
  rw [h2.2, h1.2]
  have h0 : (Frac.ofInt 0).toQ = 0 := by simp [Frac.ofInt, Frac.toQ]
  rw [h0]
  ring

theorem condContribQ_nonneg (symptoms : List String) (cr : CondRisk) :
    0 ≤ condContribQ symptoms cr := by
  rw [condContribQ]
  split
  · norm_num
  · have hw : (0 : ℚ) ≤ (severityWeight cr.risk_level : ℚ) := by
      have := severityWeight_pos cr.risk_level
      exact_mod_cast le_of_lt this
    positivity

theorem condContribQ_mono {S T : List String} (hnd : S.Nodup) (hsub : S ⊆ T)
    (cr : CondRisk) : condContribQ S cr ≤ condContribQ T cr := by
  set p := triggerMatch cr.trigger_symptoms with hp
  have hsubf : S.filter p ⊆ T.filter p := fun x hx =>
    List.mem_filter.mpr ⟨hsub (List.mem_of_mem_filter hx), List.of_mem_filter hx⟩
  have hlen : (S.filter p).length ≤ (T.filter p).length :=
    ((hnd.filter p).subperm hsubf).length_le
  by_cases hS : (S.filter p).isEmpty
  · have h1 : condContribQ S cr = 0 := by
      simp [condContribQ, ← hp, hS]
    rw [h1]
    exact condContribQ_nonneg T cr
  · have hSne : (S.filter p) ≠ [] := fun hnil => hS (by rw [hnil]; rfl)
    have hTne : (T.filter p) ≠ [] := by
      obtain ⟨x, hx⟩ := List.exists_mem_of_ne_nil _ hSne
      exact List.ne_nil_of_mem (hsubf hx)
    have h1 : condContribQ S cr
        = (severityWeight cr.risk_level : ℚ) * ((S.filter p).length : ℚ)
          / (cr.trigger_symptoms.length : ℚ) := by
      simp [condContribQ, ← hp, hS]
    have h2 : condContribQ T cr
        = (severityWeight cr.risk_level : ℚ) * ((T.filter p).length : ℚ)
          / (cr.trigger_symptoms.length : ℚ) := by
      simp [condContribQ, ← hp, List.isEmpty_iff, hTne]
    rw [h1, h2]
    have hw : (0 : ℚ) ≤ (severityWeight cr.risk_level : ℚ) := by
      have := severityWeight_pos cr.risk_level
      exact_mod_cast le_of_lt this
    rcases Nat.eq_zero_or_pos cr.trigger_symptoms.length with h0 | hpos
    · rw [h0]
      push_cast
      simp
    · have hposQ : (0 : ℚ) < (cr.trigger_symptoms.length : ℚ) := by exact_mod_cast hpos
      have hnum : (severityWeight cr.risk_level : ℚ) * ((S.filter p).length : ℚ)
          ≤ (severityWeight cr.risk_level : ℚ) * ((T.filter p).length : ℚ) :=
        mul_le_mul_of_nonneg_left (by exact_mod_cast hlen) hw
      gcongr

theorem nutContribQ_mono {S T : List String} (hsub : S ⊆ T) (nr : NutRisk) :
    nutContribQ S nr ≤ nutContribQ T nr := by
  rw [nutContribQ, nutContribQ]
  by_cases hS : (nr.symptoms.any (fun s => S.contains s)) = true
  · have hT : (nr.symptoms.any (fun s => T.contains s)) = true := by
      rcases List.any_eq_true.mp hS with ⟨x, hx, hmem⟩
      refine List.any_eq_true.mpr ⟨x, hx, ?_⟩
      have := hsub (List.mem_of_elem_eq_true hmem)
      exact List.elem_eq_true_of_mem this
    rw [if_pos hS, if_pos hT]
  · rw [if_neg hS]
    split <;> norm_num

theorem severityQ_mono {S T : List String} (hnd : S.Nodup) (hsub : S ⊆ T) :
    (riskAccum S).2.toQ ≤ (riskAccum T).2.toQ := by
  rw [(riskAccum_toQ S).2, (riskAccum_toQ T).2]
  have h1 : (PAKISTAN_HEALTH_RISKS.map (condContribQ S)).sum
      ≤ (PAKISTAN_HEALTH_RISKS.map (condContribQ T)).sum :=
    List.sum_le_sum (fun cr _ => condContribQ_mono hnd hsub cr)
  have h2 : (NUTRITION_RISKS.map (nutContribQ S)).sum
      ≤ (NUTRITION_RISKS.map (nutContribQ T)).sum :=
    List.sum_le_sum (fun nr _ => nutContribQ_mono hsub nr)
  exact add_le_add h1 h2

theorem ofInt_le_iff (k : Int) (s : Frac) (hs : 0 < s.d) :
    (Frac.ofInt k).le s = true ↔ (k : ℚ) ≤ s.toQ := by
  rw [Frac.le_eq_true_iff (a := Frac.ofInt k) (by simp [Frac.ofInt]) hs, Frac.toQ_ofInt]

theorem riskLevelOf_mono (e : Bool) (s t : Frac) (hs : 0 < s.d) (ht : 0 < t.d)
    (h : s.toQ ≤ t.toQ) :
    levelRank (riskLevelOf e s) ≤ levelRank (riskLevelOf e t) := by
  cases e with
  | true => simp [riskLevelOf, levelRank]
  | false =>
    simp only [riskLevelOf, Bool.false_or]
    have transfer : ∀ k : Int, (Frac.ofInt k).le s = true → (Frac.ofInt k).le t = true := by
      intro k hk
      exact (ofInt_le_iff k t ht).mpr (le_trans ((ofInt_le_iff k s hs).mp hk) h)
    by_cases h8 : (Frac.ofInt 8).le s = true
    · rw [if_pos h8, if_pos (transfer 8 h8)]
    · rw [if_neg h8]
      by_cases h5 : (Frac.ofInt 5).le s = true
      · rw [if_pos h5]
        by_cases h8t : (Frac.ofInt 8).le t = true
        · rw [if_pos h8t]
          simp [levelRank]
        · rw [if_neg h8t, if_pos (transfer 5 h5)]
      · rw [if_neg h5]
        by_cases h2 : (Frac.ofInt 2).le s = true
        · rw [if_pos h2]
          by_cases h8t : (Frac.ofInt 8).le t = true
          · rw [if_pos h8t]
            simp [levelRank]
          · rw [if_neg h8t]
            by_cases h5t : (Frac.ofInt 5).le t = true
            · rw [if_pos h5t]
              simp [levelRank]
            · rw [if_neg h5t, if_pos (transfer 2 h2)]
        · rw [if_neg h2]
          simp [levelRank]

theorem risk_process_level (c : AgentContext) :
    contextRiskLevel (risk_process c)
      = riskLevelOf c.is_emergency (riskAccum c.symptoms).2 := by
  rw [contextRiskLevel, risk_process]
  simp only
  rw [lookupA_setKeyA_ne _ _ _ (by decide), lookupA_setKeyA_self]

/-- C4. The Risk Assessor's aggregate risk level is monotone in symptom-set
inclusion: with the same emergency flag, a (duplicate-free) symptom list
that is contained in another never yields a higher-ranked risk level than
the larger one, under LOW < MEDIUM < HIGH < CRITICAL. -/
theorem risk_level_monotone (c c' : AgentContext)
    (hnd : c.symptoms.Nodup) (hsub : c.symptoms ⊆ c'.symptoms)
    (hem : c.is_emergency = c'.is_emergency) :
    levelRank (contextRiskLevel (risk_process c))
      ≤ levelRank (contextRiskLevel (risk_process c')) := by
  rw [risk_process_level, risk_process_level, hem]
  exact riskLevelOf_mono c'.is_emergency _ _ (riskAccum_toQ c.symptoms).1
    (riskAccum_toQ c'.symptoms).1 (severityQ_mono hnd hsub)

theorem risk_level_monotone_witness :
    ctxMonoS.symptoms.Nodup ∧ ctxMonoS.symptoms ⊆ ctxMonoT.symptoms ∧
    ctxMonoS.is_emergency = ctxMonoT.is_emergency ∧
    levelRank (contextRiskLevel (risk_process ctxMonoS))
      ≤ levelRank (contextRiskLevel (risk_process ctxMonoT)) := by
  have hsub : ctxMonoS.symptoms ⊆ ctxMonoT.symptoms := by
    intro a ha
    rw [show ctxMonoS.symptoms = ["headache"] from rfl, List.mem_singleton] at ha
    subst ha
    exact List.mem_cons_self _ _
  exact ⟨by decide, hsub, rfl,
    risk_level_monotone ctxMonoS ctxMonoT (by decide) hsub rfl⟩

theorem condEntry_no_severity (cr : CondRisk) (m : List String) :
    lookupA "severity" (condEntry cr m) = none := by
  rw [condEntry]
  cases cr.warning <;> cases cr.warning_signs <;> simp [lookupA]

theorem nutEntry_no_severity (nr : NutRisk) :
    lookupA "severity" (nutEntry nr) = none := by
  simp [nutEntry, lookupA]

theorem condFold_no_severity (symptoms : List String) :
    ∀ (L : List CondRisk) (acc : List (List (String × RVal)) × Frac),
    (∀ r ∈ acc.1, lookupA "severity" r = none) →
    ∀ r ∈ (L.foldl (condStep symptoms) acc).1, lookupA "severity" r = none
  | [], acc, hacc => hacc
  | cr :: L, acc, hacc => by
    rw [List.foldl_cons]
    refine condFold_no_severity symptoms L (condStep symptoms acc cr) ?_
    rw [condStep]
    split
    · exact hacc
    · intro r hr
      rcases List.mem_append.mp hr with h | h
      · exact hacc r h
      · rw [List.mem_singleton.mp h]
        exact condEntry_no_severity cr _

theorem nutFold_no_severity (symptoms : List String) :
    ∀ (L : List NutRisk) (acc : List (List (String × RVal)) × Frac),
    (∀ r ∈ acc.1, lookupA "severity" r = none) →
    ∀ r ∈ (L.foldl (nutStep symptoms) acc).1, lookupA "severity" r = none
  | [], acc, hacc => hacc
  | nr :: L, acc, hacc => by
    rw [List.foldl_cons]
    refine nutFold_no_severity symptoms L (nutStep symptoms acc nr) ?_
    rw [nutStep]
    split
    · intro r hr
      rcases List.mem_append.mp hr with h | h
      · exact hacc r h
      · rw [List.mem_singleton.mp h]
        exact nutEntry_no_severity nr
    · exact hacc

/-- No risk entry emitted by the Risk Assessor carries a `severity` key. -/
theorem risk_process_no_severity (c : AgentContext) :
    ∀ r ∈ (risk_process c).identified_risks, lookupA "severity" r = none := by
  intro r hr
  have hr' : r ∈ (riskAccum c.symptoms).1 := by
    have : (risk_process c).identified_risks
        = sortDescBy matchConfKey (riskAccum c.symptoms).1 := rfl
    rw [this] at hr
    exact (sortDescBy_perm matchConfKey _).mem_iff.mp hr
  rw [riskAccum] at hr'
  exact nutFold_no_severity c.symptoms NUTRITION_RISKS _
    (condFold_no_severity c.symptoms PAKISTAN_HEALTH_RISKS ([], Frac.ofInt 0)
      (by intro r hr; cases hr))
    r hr'

theorem respRiskLevel_build (c : AgentContext) (pt : Frac) :
    respRiskLevel (build_response c pt) = some (calculate_overall_risk c) := by
  rw [respRiskLevel, build_response]
  by_cases h : (decide (c.user_language = "ur") || decide (c.user_language = "roman_urdu")) = true
  · rw [if_pos h]
    simp [lookupA]
  · rw [if_neg h]
    simp [lookupA]

theorem respRecommendations_build (c : AgentContext) (pt : Frac) :
    respRecommendations (build_response c pt) = c.recommendations := by
  rw [respRecommendations, build_response]
  by_cases h : (decide (c.user_language = "ur") || decide (c.user_language = "roman_urdu")) = true
  · rw [if_pos h]
    simp [lookupA]
  · rw [if_neg h]
    simp [lookupA]

theorem respStr_build_mode (c : AgentContext) (pt : Frac) :
    respStr (build_response c pt) "mode"
      = some (if c.degraded_mode then "degraded" else "full") := by
  rw [respStr, build_response]
  by_cases h : (decide (c.user_language = "ur") || decide (c.user_language = "roman_urdu")) = true
  · rw [if_pos h]
    simp [lookupA]
  · rw [if_neg h]
    simp [lookupA]

theorem respHasKey_build_is_emergency (c : AgentContext) (pt : Frac) :
    respHasKey (build_response c pt) "is_emergency" = false := by
  rw [respHasKey, build_response]
  by_cases h : (decide (c.user_language = "ur") || decide (c.user_language = "roman_urdu")) = true
  · rw [if_pos h]
    simp [lookupA]
  · rw [if_neg h]
    simp [lookupA]

theorem respKeyCount_build_disclaimer (c : AgentContext) (pt : Frac) :
    respKeyCount (build_response c pt) "disclaimer" = 1 := by
  rw [respKeyCount, build_response]
  by_cases h : (decide (c.user_language = "ur") || decide (c.user_language = "roman_urdu")) = true
  · rw [if_pos h]
    simp [List.filter]
  · rw [if_neg h]
    simp [List.filter]

theorem respStr_build_disclaimer (c : AgentContext) (pt : Frac) :
    respStr (build_response c pt) "disclaimer"
      = some (langGet DISCLAIMERS c.user_language "") := by
  rw [respStr, build_response]
  by_cases h : (decide (c.user_language = "ur") || decide (c.user_language = "roman_urdu")) = true
  · rw [if_pos h]
    simp [lookupA]
  · rw [if_neg h]
    simp [lookupA]

theorem respKeyCount_emergency_disclaimer (c : AgentContext) :
    respKeyCount (build_emergency_response c) "disclaimer" = 0 := by
  rw [respKeyCount, build_emergency_response]
  simp [List.filter]

/-- `calculate_overall_risk` returns LOW whenever no entry carries a
`severity` key and the emergency flag is off. -/
theorem calculate_overall_risk_low (c : AgentContext)
    (hs : ∀ r ∈ c.identified_risks, lookupA "severity" r = none)
    (he : c.is_emergency = false) :
    calculate_overall_risk c = "LOW" := by
  rw [calculate_overall_risk, he]
  rw [if_neg (by simp)]
  by_cases hemp : c.identified_risks.isEmpty
  · rw [if_pos hemp]
  · rw [if_neg hemp]
    have hcount : ∀ k : Int, 0 ≤ k → c.identified_risks.countP
        (fun r => ((Frac.ofInt k).blt (getSeverity r) : Bool)) = 0 := by
      intro k hk
      rw [List.countP_eq_zero]
      intro r hr
      rw [getSeverity, hs r hr]
      simp [Frac.blt, Frac.ofInt]
      omega
    rw [if_neg (by rw [hcount 7 (by norm_num)]; simp),
        if_neg (by rw [hcount 4 (by norm_num)]; simp)]

/-- C10 (implicit). In every full-pipeline non-emergency envelope, the
`risks.risk_level` field is `"LOW"` no matter what the Risk Assessor
computed: the orchestrator recomputation reads a numeric `severity` key
that the Risk Assessor's entries never contain, so its HIGH/MEDIUM
thresholds are unreachable. -/
theorem overall_risk_always_low (c : AgentContext) (u : Bool)
    (o : Option (List String)) (pt : Frac) (he : c.is_emergency = false) :
    respRiskLevel (build_response
      (validate_recommendations (advisor_process u o (risk_process c)).1) pt)
      = some "LOW" := by
  rw [respRiskLevel_build]
  congr 1
  apply calculate_overall_risk_low
  · intro r hr
    have hrisks : (validate_recommendations (advisor_process u o (risk_process c)).1).identified_risks
        = (risk_process c).identified_risks := rfl
    rw [hrisks] at hr
    exact risk_process_no_severity c r hr
  · have hem : (validate_recommendations (advisor_process u o (risk_process c)).1).is_emergency
        = c.is_emergency := rfl
    rw [hem, he]

set_option maxRecDepth 10000 in
/-- C3 (code bug). The Safety post-check is specified to prepend a
localized see-a-doctor line when the aggregate risk is HIGH or CRITICAL,
but its guard reads `r.get("severity", 0) > 7` on risk entries that never
carry a `severity` key, so it never fires: on a symptom set whose aggregate
level is HIGH, the post-check leaves the recommendation list unchanged,
no doctor line appears, and no `DOCTOR_RECOMMENDED` flag is set. -/
theorem doctor_line_never_prepended :
    contextRiskLevel (risk_process ctxHigh) = "HIGH"
  ∧ (validate_recommendations (advisor_process true none (risk_process ctxHigh)).1).recommendations
      = ((advisor_process true none (risk_process ctxHigh)).1).recommendations
  ∧ ((validate_recommendations (advisor_process true none (risk_process ctxHigh)).1).recommendations.contains
      (get_doctor_recommendation "en")) = false
  ∧ ((validate_recommendations (advisor_process true none (risk_process ctxHigh)).1).safety_flags.contains
      "DOCTOR_RECOMMENDED") = false := by
  refine ⟨by decide, by decide, by decide, by decide⟩

theorem validate_recs_no_severity (c : AgentContext)
    (hs : ∀ r ∈ c.identified_risks, lookupA "severity" r = none) :
    (validate_recommendations c).recommendations
      = c.recommendations.filter is_safe_recommendation := by
  rw [validate_recommendations]
  have hhs : c.identified_risks.any
      (fun r => (Frac.ofInt 7).blt (getSeverity r)) = false := by
    rw [List.any_eq_false]
    intro r hr
    rw [getSeverity, hs r hr]
    decide
  simp only [hhs, Bool.and_false, Bool.false_and, Bool.if_false_left]
  simp

theorem advisor_recs_paraphrase_none (u : Bool) (c : AgentContext) :
    ((advisor_process u none c).1).recommendations
      = (dedupF (c.symptoms.foldl (advisorSymptomStep c.user_language)
          ([], [], c.safety_flags)).1).take 10 := by
  rw [advisor_process]
  simp only [ite_self]

/-- C2 (amended). The recommendation list of the assembled envelope never
exceeds the cap of 10 entries, on the full path (for contexts whose risk
entries lack a `severity` key, as the Risk Assessor guarantees) and the
degraded path alike; it contains no duplicates on the degraded path, and on
the full path whenever no LLM paraphrase replaced it (`paraphrase = none`).
A non-`none` paraphrase is installed verbatim (capped at 5) and may repeat
lines — see the counterexample. -/
theorem recommendations_capped_and_deduped :
    (∀ (c : AgentContext) (u : Bool) (o : Option (List String)) (pt : Frac),
      (∀ r ∈ c.identified_risks, lookupA "severity" r = none) →
      (respRecommendations (build_response
          (validate_recommendations (advisor_process u o c).1) pt)).length ≤ 10
      ∧ (o = none →
          (respRecommendations (build_response
            (validate_recommendations (advisor_process u o c).1) pt)).Nodup))
  ∧ (∀ (c : AgentContext) (pt : Frac),
      (respRecommendations (build_response (fallback_process c) pt)).length ≤ 10
      ∧ (respRecommendations (build_response (fallback_process c) pt)).Nodup) := by
  constructor
  · intro c u o pt hs
    rw [respRecommendations_build]
    have hs' : ∀ r ∈ ((advisor_process u o c).1).identified_risks,
        lookupA "severity" r = none := hs
    rw [validate_recs_no_severity _ hs']
    have hcap : ((advisor_process u o c).1).recommendations.length ≤ 10 := by
      obtain ⟨X, hX⟩ : ∃ X : List String,
          ((advisor_process u o c).1).recommendations = X.take 10 := ⟨_, rfl⟩
      rw [hX]
      exact List.length_take_le 10 _
    constructor
    · exact le_trans (List.length_filter_le _ _) hcap
    · intro ho
      subst ho
      rw [advisor_recs_paraphrase_none]
      exact ((dedupF_nodup _).sublist (List.take_sublist 10 _)).filter _
  · intro c pt
    rw [respRecommendations_build, fallback_process]
    split
    · constructor
      · simp
      · simp
    · constructor
      · exact List.length_take_le 10 _
      · exact (dedupF_nodup _).sublist (List.take_sublist 10 _)

theorem respOf_prependTrace (t : Trace) (x : Except String (Response × Trace)) :
    respOf (prependTrace t x) = respOf x := by
  cases x with
  | ok p => cases p; rfl
  | error e => rfl

/-- The full (non-degraded) run of the orchestrator, unfolded past the
health probe: the pre-check runs outside the protected region, an
emergency short-circuits, and each protected-stage failure hands the last
completed context to the degraded path. -/
theorem phq_full_step (pre sym risk adv post fb : Stage) (pt : Frac) (c : AgentContext) :
    process_health_query pre sym risk adv post fb false true pt c
      = (match pre { c with degraded_mode := false } with
         | Except.error e => Except.error e
         | Except.ok (c1, t1) =>
           if c1.is_emergency then
             Except.ok (build_emergency_response c1, "llm.health_check" :: t1)
           else
             match sym c1 with
             | Except.error _ => prependTrace ("llm.health_check" :: t1) (process_degraded fb pt c1)
             | Except.ok (c2, t2) =>
               match risk c2 with
               | Except.error _ => prependTrace ("llm.health_check" :: (t1 ++ t2)) (process_degraded fb pt c2)
               | Except.ok (c3, t3) =>
                 match adv c3 with
                 | Except.error _ => prependTrace ("llm.health_check" :: (t1 ++ t2 ++ t3)) (process_degraded fb pt c3)
                 | Except.ok (c4, t4) =>
                   match post c4 with
                   | Except.error _ => prependTrace ("llm.health_check" :: (t1 ++ t2 ++ t3 ++ t4)) (process_degraded fb pt c4)
                   | Except.ok (c5, t5) =>
                     Except.ok (build_response c5 pt,
                       "llm.health_check" :: (t1 ++ t2 ++ t3 ++ t4 ++ t5))) := rfl

theorem safety_process_emergency_eq (c : AgentContext)
    (h : check_emergency (safetyScanText c) = true) :
    safety_process c = { c with
      is_emergency := true
      safety_flags := c.safety_flags ++ ["EMERGENCY_DETECTED"]
      decisions := c.decisions ++
        [{ agent_name := "SafetyGuard"
           decision := "Emergency situation detected"
           reasoning := "User input contains emergency symptoms requiring immediate medical attention"
           confidence := ⟨95, 100⟩
           inputs_used := ["user_input", "emergency_patterns"]
           language := c.user_language }] } := by
  rw [safety_process]
  simp only [h, if_true]

/-- C6. A Safety Guard pre-check match sets `is_emergency`, appends exactly
one `EMERGENCY_DETECTED` flag and exactly one decision record whose
confidence is 0.95, and the full pipeline then returns the emergency
response without invoking the symptom, risk, advisor or post-check stage
(the result is the same for every instantiation of those stages). -/
theorem safety_precheck_short_circuit (c : AgentContext)
    (h : check_emergency (safetyScanText c) = true) :
    safety_process c = { c with
      is_emergency := true
      safety_flags := c.safety_flags ++ ["EMERGENCY_DETECTED"]
      decisions := c.decisions ++
        [{ agent_name := "SafetyGuard"
           decision := "Emergency situation detected"
           reasoning := "User input contains emergency symptoms requiring immediate medical attention"
           confidence := ⟨95, 100⟩
           inputs_used := ["user_input", "emergency_patterns"]
           language := c.user_language }] }
  ∧ (Frac.toQ ⟨95, 100⟩) = 0.95
  ∧ ∀ (sym risk adv post fb : Stage) (pt : Frac),
      process_health_query safetyStage sym risk adv post fb false true pt c
        = Except.ok (build_emergency_response
            (safety_process { c with degraded_mode := false }),
            ["llm.health_check"]) := by
  have hD : check_emergency (safetyScanText { c with degraded_mode := false }) = true := h
  have hsp := safety_process_emergency_eq { c with degraded_mode := false } hD
  refine ⟨safety_process_emergency_eq c h, by norm_num [Frac.toQ], ?_⟩
  intro sym risk adv post fb pt
  rw [phq_full_step]
  have hpre : safetyStage { c with degraded_mode := false }
      = Except.ok (safety_process { c with degraded_mode := false }, []) := rfl
  rw [hpre]
  have hem : (safety_process { c with degraded_mode := false }).is_emergency = true := by
    rw [hsp]
  simp only [hem, if_true]

set_option maxRecDepth 10000 in
theorem safety_precheck_short_circuit_witness :
    check_emergency (safetyScanText ctxChest) = true
  ∧ (safety_process ctxChest = { ctxChest with
      is_emergency := true
      safety_flags := ctxChest.safety_flags ++ ["EMERGENCY_DETECTED"]
      decisions := ctxChest.decisions ++
        [{ agent_name := "SafetyGuard"
           decision := "Emergency situation detected"
           reasoning := "User input contains emergency symptoms requiring immediate medical attention"
           confidence := ⟨95, 100⟩
           inputs_used := ["user_input", "emergency_patterns"]
           language := ctxChest.user_language }] }
    ∧ (Frac.toQ ⟨95, 100⟩) = 0.95
    ∧ ∀ (sym risk adv post fb : Stage) (pt : Frac),
        process_health_query safetyStage sym risk adv post fb false true pt ctxChest
          = Except.ok (build_emergency_response
              (safety_process { ctxChest with degraded_mode := false }),
              ["llm.health_check"])) :=
  ⟨by decide, safety_precheck_short_circuit ctxChest (by decide)⟩

/-- C7 (amended). An exception in the Symptom Extractor, Risk Assessor,
Advisor or Safety post-check triggers exactly one whole-request retry in
Degraded Mode, started from the context left by the last completed stage;
a Degraded-Mode failure is terminal; but an exception in the Safety
pre-check propagates to the caller (the pre-check runs outside the
protected region). -/
theorem stage_failure_degraded_retry (pre sym risk adv post fb : Stage)
    (pt : Frac) (c : AgentContext) :
    (∀ e, pre { c with degraded_mode := false } = Except.error e →
      process_health_query pre sym risk adv post fb false true pt c
        = Except.error e)
  ∧ (∀ c1 t1 e, pre { c with degraded_mode := false } = Except.ok (c1, t1) →
      c1.is_emergency = false → sym c1 = Except.error e →
      respOf (process_health_query pre sym risk adv post fb false true pt c)
        = respOf (process_degraded fb pt c1))
  ∧ (∀ c1 t1 c2 t2 e, pre { c with degraded_mode := false } = Except.ok (c1, t1) →
      c1.is_emergency = false → sym c1 = Except.ok (c2, t2) →
      risk c2 = Except.error e →
      respOf (process_health_query pre sym risk adv post fb false true pt c)
        = respOf (process_degraded fb pt c2))
  ∧ (∀ c1 t1 c2 t2 c3 t3 e, pre { c with degraded_mode := false } = Except.ok (c1, t1) →
      c1.is_emergency = false → sym c1 = Except.ok (c2, t2) →
      risk c2 = Except.ok (c3, t3) → adv c3 = Except.error e →
      respOf (process_health_query pre sym risk adv post fb false true pt c)
        = respOf (process_degraded fb pt c3))
  ∧ (∀ c1 t1 c2 t2 c3 t3 c4 t4 e, pre { c with degraded_mode := false } = Except.ok (c1, t1) →
      c1.is_emergency = false → sym c1 = Except.ok (c2, t2) →
      risk c2 = Except.ok (c3, t3) → adv c3 = Except.ok (c4, t4) →
      post c4 = Except.error e →
      respOf (process_health_query pre sym risk adv post fb false true pt c)
        = respOf (process_degraded fb pt c4))
  ∧ (∀ (c' : AgentContext) e, fb { c' with degraded_mode := true } = Except.error e →
      process_degraded fb pt c' = Except.error e) := by
  refine ⟨?_, ?_, ?_, ?_, ?_, ?_⟩
  · intro e hpre
    rw [phq_full_step, hpre]
  · intro c1 t1 e hpre hem hsym
    rw [phq_full_step, hpre]
    simp only [hem, Bool.false_eq_true, if_false, hsym, respOf_prependTrace]
  · intro c1 t1 c2 t2 e hpre hem hsym hrisk
    rw [phq_full_step, hpre]
    simp only [hem, Bool.false_eq_true, if_false, hsym, hrisk, respOf_prependTrace]
  · intro c1 t1 c2 t2 c3 t3 e hpre hem hsym hrisk hadv
    rw [phq_full_step, hpre]
    simp only [hem, Bool.false_eq_true, if_false, hsym, hrisk, hadv, respOf_prependTrace]
  · intro c1 t1 c2 t2 c3 t3 c4 t4 e hpre hem hsym hrisk hadv hpost
    rw [phq_full_step, hpre]
    simp only [hem, Bool.false_eq_true, if_false, hsym, hrisk, hadv, hpost,
      respOf_prependTrace]
  · intro c' e hfb
    rw [process_degraded, hfb]

theorem precheck_exception_propagates :
    process_health_query errStage okStage okStage okStage okStage fallbackStage
        false true (Frac.ofInt 0) ctxPlain = Except.error "boom"
  ∧ (process_degraded fallbackStage (Frac.ofInt 0)
      { ctxPlain with degraded_mode := false }).isOk = true :=
  ⟨rfl, by decide⟩

theorem stage_failure_degraded_retry_witness :
    respOf (process_health_query okStage errStage okStage okStage okStage fallbackStage
        false true (Frac.ofInt 0) ctxPlain)
      = respOf (process_degraded fallbackStage (Frac.ofInt 0)
          { ctxPlain with degraded_mode := false }) :=
  (stage_failure_degraded_retry okStage errStage okStage okStage okStage fallbackStage
    (Frac.ofInt 0) ctxPlain).2.1 { ctxPlain with degraded_mode := false } [] "boom"
    rfl rfl rfl

theorem respHasKey_emergency_is_emergency (c : AgentContext) :
    respHasKey (build_emergency_response c) "is_emergency" = true := by
  simp [build_emergency_response, respHasKey, lookupA]

theorem fallback_process_emergency_eq (c : AgentContext)
    (h : offline_is_emergency (offlineScanText c) = true) :
    fallback_process c = { c with
      is_emergency := true
      safety_flags := c.safety_flags ++ ["EMERGENCY_DETECTED_OFFLINE"]
      recommendations := [get_emergency_message c.user_language] } := by
  rw [fallback_process]
  simp only [h, if_true]

theorem fallback_process_degraded_mode (c : AgentContext) :
    (fallback_process { c with degraded_mode := true }).degraded_mode = true := by
  rw [fallback_process]
  split <;> rfl

/-- C1 (amended). An emergency-phrase match on the full path yields
`is_emergency = true` and the emergency short-circuit schema.  On the
degraded path, a match of the fallback agent's own keyword set sets
`is_emergency = true` on the context, but the returned response is the
standard envelope (`mode = "degraded"`, no `is_emergency` field), not the
emergency schema. -/
theorem emergency_detection_paths (c : AgentContext) (pt : Frac) :
    (check_emergency (safetyScanText c) = true →
      ∀ (sym risk adv post fb : Stage),
        process_health_query safetyStage sym risk adv post fb false true pt c
          = Except.ok (build_emergency_response
              (safety_process { c with degraded_mode := false }),
              ["llm.health_check"])
        ∧ (safety_process { c with degraded_mode := false }).is_emergency = true
        ∧ respHasKey (build_emergency_response
            (safety_process { c with degraded_mode := false })) "is_emergency" = true)
  ∧ (offline_is_emergency (offlineScanText c) = true →
      ∀ (pre sym risk adv post : Stage) (hOK : Bool),
        process_health_query pre sym risk adv post fallbackStage true hOK pt c
          = Except.ok (build_response
              (fallback_process { c with degraded_mode := true }) pt, [])
        ∧ (fallback_process { c with degraded_mode := true }).is_emergency = true
        ∧ respHasKey (build_response
            (fallback_process { c with degraded_mode := true }) pt) "is_emergency" = false
        ∧ respStr (build_response
            (fallback_process { c with degraded_mode := true }) pt) "mode"
              = some "degraded") := by
  constructor
  · intro h sym risk adv post fb
    have hD : check_emergency (safetyScanText { c with degraded_mode := false }) = true := h
    have hsp := safety_process_emergency_eq { c with degraded_mode := false } hD
    have hem : (safety_process { c with degraded_mode := false }).is_emergency = true := by
      rw [hsp]
    refine ⟨?_, hem, respHasKey_emergency_is_emergency _⟩
    rw [phq_full_step]
    have hpre : safetyStage { c with degraded_mode := false }
        = Except.ok (safety_process { c with degraded_mode := false }, []) := rfl
    rw [hpre]
    simp only [hem, if_true]
  · intro h pre sym risk adv post hOK
    have hD : offline_is_emergency (offlineScanText { c with degraded_mode := true }) = true := h
    have hfp := fallback_process_emergency_eq { c with degraded_mode := true } hD
    have hem : (fallback_process { c with degraded_mode := true }).is_emergency = true := by
      rw [hfp]
    refine ⟨rfl, hem, respHasKey_build_is_emergency _ pt, ?_⟩
    rw [respStr_build_mode, fallback_process_degraded_mode]
    rfl

set_option maxRecDepth 10000 in
theorem emergency_detection_paths_witness :
    (check_emergency (safetyScanText ctxChest) = true
      ∧ offline_is_emergency (offlineScanText ctxChestD) = true)
  ∧ (∀ (sym risk adv post fb : Stage),
      process_health_query safetyStage sym risk adv post fb false true (Frac.ofInt 0) ctxChest
        = Except.ok (build_emergency_response
            (safety_process { ctxChest with degraded_mode := false }),
            ["llm.health_check"])
      ∧ (safety_process { ctxChest with degraded_mode := false }).is_emergency = true
      ∧ respHasKey (build_emergency_response
          (safety_process { ctxChest with degraded_mode := false })) "is_emergency" = true)
  ∧ (∀ (pre sym risk adv post : Stage) (hOK : Bool),
      process_health_query pre sym risk adv post fallbackStage true hOK (Frac.ofInt 0) ctxChestD
        = Except.ok (build_response
            (fallback_process { ctxChestD with degraded_mode := true }) (Frac.ofInt 0), [])
      ∧ (fallback_process { ctxChestD with degraded_mode := true }).is_emergency = true
      ∧ respHasKey (build_response
          (fallback_process { ctxChestD with degraded_mode := true }) (Frac.ofInt 0)) "is_emergency" = false
      ∧ respStr (build_response
          (fallback_process { ctxChestD with degraded_mode := true }) (Frac.ofInt 0)) "mode"
            = some "degraded") :=
  ⟨⟨by decide, by decide⟩,
   (emergency_detection_paths ctxChest (Frac.ofInt 0)).1 (by decide),
   (emergency_detection_paths ctxChestD (Frac.ofInt 0)).2 (by decide)⟩

set_option maxRecDepth 10000 in
theorem emergency_schema_not_used_when_degraded :
    (fallback_process { ctxChestD with degraded_mode := true }).is_emergency = true
  ∧ respHasKey (runResp (process_health_query okStage okStage okStage okStage okStage
      fallbackStage true true (Frac.ofInt 0) ctxChestD)) "is_emergency" = false
  ∧ respStr (runResp (process_health_query okStage okStage okStage okStage okStage
      fallbackStage true true (Frac.ofInt 0) ctxChestD)) "mode" = some "degraded" := by
  refine ⟨by decide, by decide, by decide⟩

/-- C8 (amended). Every standard envelope (full or degraded) carries the
localized disclaimer exactly once, as its top-level `disclaimer` field;
the emergency short-circuit schema carries no disclaimer at all. -/
theorem disclaimer_exactly_once_in_envelope :
    (∀ (c : AgentContext) (pt : Frac),
      respKeyCount (build_response c pt) "disclaimer" = 1
      ∧ respStr (build_response c pt) "disclaimer"
          = some (langGet DISCLAIMERS c.user_language ""))
  ∧ (∀ c : AgentContext,
      respKeyCount (build_emergency_response c) "disclaimer" = 0) :=
  ⟨fun c pt => ⟨respKeyCount_build_disclaimer c pt, respStr_build_disclaimer c pt⟩,
   respKeyCount_emergency_disclaimer⟩

set_option maxRecDepth 10000 in
theorem emergency_response_has_no_disclaimer :
    respKeyCount (runResp (process_health_query safetyStage okStage okStage okStage okStage
        fallbackStage false true (Frac.ofInt 0) ctxChest)) "disclaimer" = 0
  ∧ respHasKey (runResp (process_health_query safetyStage okStage okStage okStage okStage
      fallbackStage false true (Frac.ofInt 0) ctxChest)) "is_emergency" = true := by
  refine ⟨by decide, by decide⟩

/-- C9. The degraded stage issues zero backend calls (its trace is empty:
the fallback agent consults only the in-memory knowledge base and keyword
matching) and the response it builds always reports `mode = "degraded"`;
a request entering the orchestrator without an LLM service goes through
exactly this path. -/
theorem degraded_mode_no_backend_calls :
    (∀ (c : AgentContext) (pt : Frac),
      process_degraded fallbackStage pt c
        = Except.ok (build_response (fallback_process { c with degraded_mode := true }) pt, [])
      ∧ respStr (build_response (fallback_process { c with degraded_mode := true }) pt) "mode"
          = some "degraded")
  ∧ (∀ (pre sym risk adv post : Stage) (hOK : Bool) (pt : Frac) (c : AgentContext),
      process_health_query pre sym risk adv post fallbackStage true hOK pt c
        = process_degraded fallbackStage pt { c with degraded_mode := true }) := by
  constructor
  · intro c pt
    refine ⟨rfl, ?_⟩
    rw [respStr_build_mode, fallback_process_degraded_mode]
    rfl
  · intro pre sym risk adv post hOK pt c
    rfl

set_option maxRecDepth 10000 in
theorem duplicate_paraphrase_reaches_response :
    respRecommendations (runResp (process_health_query safetyStage symStubFever riskStage
        (advisorStage (some ["Rest", "Rest"])) postStage fallbackStage false true
        (Frac.ofInt 0) ctxDup))
      = ["Rest", "Rest"]
  ∧ ¬ (respRecommendations (runResp (process_health_query safetyStage symStubFever riskStage
        (advisorStage (some ["Rest", "Rest"])) postStage fallbackStage false true
        (Frac.ofInt 0) ctxDup))).Nodup := by
  refine ⟨by decide, by decide⟩

theorem recommendations_capped_and_deduped_witness :
    (respRecommendations (build_response
        (validate_recommendations (advisor_process true none (risk_process ctxHigh)).1)
        (Frac.ofInt 0))).length ≤ 10
  ∧ (respRecommendations (build_response
      (validate_recommendations (advisor_process true none (risk_process ctxHigh)).1)
      (Frac.ofInt 0))).Nodup :=
  ⟨(recommendations_capped_and_deduped.1 (risk_process ctxHigh) true none (Frac.ofInt 0)
      (risk_process_no_severity ctxHigh)).1,
   (recommendations_capped_and_deduped.1 (risk_process ctxHigh) true none (Frac.ofInt 0)
      (risk_process_no_severity ctxHigh)).2 rfl⟩

theorem overall_risk_always_low_witness :
    ctxHigh.is_emergency = false
  ∧ respRiskLevel (build_response
      (validate_recommendations (advisor_process true none (risk_process ctxHigh)).1)
      (Frac.ofInt 0)) = some "LOW" :=
  ⟨rfl, overall_risk_always_low ctxHigh true none (Frac.ofInt 0) rfl⟩
